import Mathlib

/-!
# CPC daemon: library header enumerations, endpoint session model, GPIO sysfs helpers

Shallow embedding of

* `src/lib/sl_cpc.h`: the four `SL_ENUM` declarations (endpoint state, option kind,
  service endpoint ids, user endpoint ids) and the documented contracts of the
  declared library calls;
* `src/misc/gpio_sysfs.c`: `simple_write`, `export`, `get_fd`, `set_direction`,
  `set_edge`, `gpio_init`, `gpio_write`, `gpio_read`.

System calls are external: every function of the embedding receives the results of
the system calls it performs as arguments and reports the writes it issues.
-/

namespace CpcDaemon

/-! ## C enumerations of `sl_cpc.h` -/

/-- Values a C compiler assigns to an enumerator list: an explicit initialiser is
taken as is, an enumerator without one gets the previous value plus one (the
first one gets `next`, which is `0` at the start of a declaration). -/
def enumValues : List (String × Option Nat) → Nat → List (String × Nat)
  | [], _ => []
  | (n, some v) :: rest, _ => (n, v) :: enumValues rest (v + 1)
  | (n, none) :: rest, next => (n, next) :: enumValues rest (next + 1)

/-- Enumerator list of `SL_ENUM(cpc_endpoint_state_t)`, `sl_cpc.h` lines 34-41. -/
def cpc_endpoint_state_t_decl : List (String × Option Nat) :=
  [ ("SL_CPC_STATE_OPEN", some 0),
    ("SL_CPC_STATE_CLOSED", none),
    ("SL_CPC_STATE_CLOSING", none),
    ("SL_CPC_STATE_ERROR_DESTINATION_UNREACHABLE", none),
    ("SL_CPC_STATE_ERROR_SECURITY_INCIDENT", none),
    ("SL_CPC_STATE_ERROR_FAULT", none) ]

/-- Enumerator list of `SL_ENUM(cpc_option_t)`, `sl_cpc.h` lines 43-50. -/
def cpc_option_t_decl : List (String × Option Nat) :=
  [ ("CPC_OPTION_NONE", some 0),
    ("CPC_OPTION_BLOCKING", none),
    ("CPC_OPTION_RX_TIMEOUT", none),
    ("CPC_OPTION_TX_TIMEOUT", none),
    ("CPC_OPTION_SOCKET_SIZE", none),
    ("CPC_OPTION_MAX_WRITE_SIZE", none) ]

/-- Enumerator list of `SL_ENUM(sl_cpc_service_endpoint_id_t)`, lines 52-67. -/
def sl_cpc_service_endpoint_id_t_decl : List (String × Option Nat) :=
  [ ("SL_CPC_ENDPOINT_SYSTEM", some 0),
    ("SL_CPC_ENDPOINT_SECURITY", some 1),
    ("SL_CPC_ENDPOINT_BLUETOOTH", some 2),
    ("SL_CPC_SLI_CPC_ENDPOINT_RAIL_DOWNSTREAM", some 3),
    ("SL_CPC_SLI_CPC_ENDPOINT_RAIL_UPSTREAM", some 4),
    ("SL_CPC_ENDPOINT_ZIGBEE", some 5),
    ("SL_CPC_ENDPOINT_ZWAVE", some 6),
    ("SL_CPC_ENDPOINT_CONNECT", some 7),
    ("SL_CPC_ENDPOINT_GPIO", some 8),
    ("SL_CPC_ENDPOINT_OPENTHREAD", some 9),
    ("SL_CPC_ENDPOINT_WISUN", some 10),
    ("SL_CPC_ENDPOINT_WIFI", some 11),
    ("SL_CPC_ENDPOINT_15_4", some 12),
    ("SL_CPC_ENDPOINT_CLI", some 13) ]

/-- Enumerator list of `SL_ENUM(sl_cpc_user_endpoint_id_t)`, lines 69-80. -/
def sl_cpc_user_endpoint_id_t_decl : List (String × Option Nat) :=
  [ ("SL_CPC_ENDPOINT_USER_ID_0", some 90),
    ("SL_CPC_ENDPOINT_USER_ID_1", some 91),
    ("SL_CPC_ENDPOINT_USER_ID_2", some 92),
    ("SL_CPC_ENDPOINT_USER_ID_3", some 93),
    ("SL_CPC_ENDPOINT_USER_ID_4", some 94),
    ("SL_CPC_ENDPOINT_USER_ID_5", some 95),
    ("SL_CPC_ENDPOINT_USER_ID_6", some 96),
    ("SL_CPC_ENDPOINT_USER_ID_7", some 97),
    ("SL_CPC_ENDPOINT_USER_ID_8", some 98),
    ("SL_CPC_ENDPOINT_USER_ID_9", some 99) ]

/-- The endpoint states of `cpc_endpoint_state_t`. -/
inductive cpc_endpoint_state_t where
  | SL_CPC_STATE_OPEN
  | SL_CPC_STATE_CLOSED
  | SL_CPC_STATE_CLOSING
  | SL_CPC_STATE_ERROR_DESTINATION_UNREACHABLE
  | SL_CPC_STATE_ERROR_SECURITY_INCIDENT
  | SL_CPC_STATE_ERROR_FAULT
  deriving DecidableEq, Repr, Fintype

/-- Encoding of an endpoint state (implicit enumerators count up from `OPEN = 0`). -/
def cpc_endpoint_state_t.val : cpc_endpoint_state_t → Nat
  | SL_CPC_STATE_OPEN => 0
  | SL_CPC_STATE_CLOSED => 1
  | SL_CPC_STATE_CLOSING => 2
  | SL_CPC_STATE_ERROR_DESTINATION_UNREACHABLE => 3
  | SL_CPC_STATE_ERROR_SECURITY_INCIDENT => 4
  | SL_CPC_STATE_ERROR_FAULT => 5

/-- The option kinds of `cpc_option_t`. -/
inductive cpc_option_t where
  | CPC_OPTION_NONE
  | CPC_OPTION_BLOCKING
  | CPC_OPTION_RX_TIMEOUT
  | CPC_OPTION_TX_TIMEOUT
  | CPC_OPTION_SOCKET_SIZE
  | CPC_OPTION_MAX_WRITE_SIZE
  deriving DecidableEq, Repr, Fintype

/-- Encoding of an option kind (implicit enumerators count up from `NONE = 0`). -/
def cpc_option_t.val : cpc_option_t → Nat
  | CPC_OPTION_NONE => 0
  | CPC_OPTION_BLOCKING => 1
  | CPC_OPTION_RX_TIMEOUT => 2
  | CPC_OPTION_TX_TIMEOUT => 3
  | CPC_OPTION_SOCKET_SIZE => 4
  | CPC_OPTION_MAX_WRITE_SIZE => 5

/-- The service endpoints of `sl_cpc_service_endpoint_id_t`. -/
inductive sl_cpc_service_endpoint_id_t where
  | SL_CPC_ENDPOINT_SYSTEM
  | SL_CPC_ENDPOINT_SECURITY
  | SL_CPC_ENDPOINT_BLUETOOTH
  | SL_CPC_SLI_CPC_ENDPOINT_RAIL_DOWNSTREAM
  | SL_CPC_SLI_CPC_ENDPOINT_RAIL_UPSTREAM
  | SL_CPC_ENDPOINT_ZIGBEE
  | SL_CPC_ENDPOINT_ZWAVE
  | SL_CPC_ENDPOINT_CONNECT
  | SL_CPC_ENDPOINT_GPIO
  | SL_CPC_ENDPOINT_OPENTHREAD
  | SL_CPC_ENDPOINT_WISUN
  | SL_CPC_ENDPOINT_WIFI
  | SL_CPC_ENDPOINT_15_4
  | SL_CPC_ENDPOINT_CLI
  deriving DecidableEq, Repr, Fintype

/-- Numeric id of a service endpoint (every enumerator has an explicit value). -/
def sl_cpc_service_endpoint_id_t.val : sl_cpc_service_endpoint_id_t → Nat
  | SL_CPC_ENDPOINT_SYSTEM => 0
  | SL_CPC_ENDPOINT_SECURITY => 1
  | SL_CPC_ENDPOINT_BLUETOOTH => 2
  | SL_CPC_SLI_CPC_ENDPOINT_RAIL_DOWNSTREAM => 3
  | SL_CPC_SLI_CPC_ENDPOINT_RAIL_UPSTREAM => 4
  | SL_CPC_ENDPOINT_ZIGBEE => 5
  | SL_CPC_ENDPOINT_ZWAVE => 6
  | SL_CPC_ENDPOINT_CONNECT => 7
  | SL_CPC_ENDPOINT_GPIO => 8
  | SL_CPC_ENDPOINT_OPENTHREAD => 9
  | SL_CPC_ENDPOINT_WISUN => 10
  | SL_CPC_ENDPOINT_WIFI => 11
  | SL_CPC_ENDPOINT_15_4 => 12
  | SL_CPC_ENDPOINT_CLI => 13

/-- The user endpoints of `sl_cpc_user_endpoint_id_t`. -/
inductive sl_cpc_user_endpoint_id_t where
  | SL_CPC_ENDPOINT_USER_ID_0
  | SL_CPC_ENDPOINT_USER_ID_1
  | SL_CPC_ENDPOINT_USER_ID_2
  | SL_CPC_ENDPOINT_USER_ID_3
  | SL_CPC_ENDPOINT_USER_ID_4
  | SL_CPC_ENDPOINT_USER_ID_5
  | SL_CPC_ENDPOINT_USER_ID_6
  | SL_CPC_ENDPOINT_USER_ID_7
  | SL_CPC_ENDPOINT_USER_ID_8
  | SL_CPC_ENDPOINT_USER_ID_9
  deriving DecidableEq, Repr, Fintype

/-- Numeric id of a user endpoint (every enumerator has an explicit value). -/
def sl_cpc_user_endpoint_id_t.val : sl_cpc_user_endpoint_id_t → Nat
  | SL_CPC_ENDPOINT_USER_ID_0 => 90
  | SL_CPC_ENDPOINT_USER_ID_1 => 91
  | SL_CPC_ENDPOINT_USER_ID_2 => 92
  | SL_CPC_ENDPOINT_USER_ID_3 => 93
  | SL_CPC_ENDPOINT_USER_ID_4 => 94
  | SL_CPC_ENDPOINT_USER_ID_5 => 95
  | SL_CPC_ENDPOINT_USER_ID_6 => 96
  | SL_CPC_ENDPOINT_USER_ID_7 => 97
  | SL_CPC_ENDPOINT_USER_ID_8 => 98
  | SL_CPC_ENDPOINT_USER_ID_9 => 99

/-- The `k`-th user endpoint, `SL_CPC_ENDPOINT_USER_ID_k`. -/
def sl_cpc_user_endpoint_id_t.ofIndex : Fin 10 → sl_cpc_user_endpoint_id_t
  | 0 => SL_CPC_ENDPOINT_USER_ID_0
  | 1 => SL_CPC_ENDPOINT_USER_ID_1
  | 2 => SL_CPC_ENDPOINT_USER_ID_2
  | 3 => SL_CPC_ENDPOINT_USER_ID_3
  | 4 => SL_CPC_ENDPOINT_USER_ID_4
  | 5 => SL_CPC_ENDPOINT_USER_ID_5
  | 6 => SL_CPC_ENDPOINT_USER_ID_6
  | 7 => SL_CPC_ENDPOINT_USER_ID_7
  | 8 => SL_CPC_ENDPOINT_USER_ID_8
  | 9 => SL_CPC_ENDPOINT_USER_ID_9

/-- An endpoint id declared by the header: a service endpoint or a user endpoint. -/
abbrev DeclaredEndpointId := sl_cpc_service_endpoint_id_t ⊕ sl_cpc_user_endpoint_id_t

/-- The numeric id passed as the `uint8_t id` argument for a declared endpoint. -/
def DeclaredEndpointId.val : DeclaredEndpointId → Nat
  | Sum.inl s => s.val
  | Sum.inr u => u.val

/-- All constructors of the service enumeration, in declaration order. -/
def serviceEndpoints : List sl_cpc_service_endpoint_id_t :=
  [ .SL_CPC_ENDPOINT_SYSTEM, .SL_CPC_ENDPOINT_SECURITY, .SL_CPC_ENDPOINT_BLUETOOTH,
    .SL_CPC_SLI_CPC_ENDPOINT_RAIL_DOWNSTREAM, .SL_CPC_SLI_CPC_ENDPOINT_RAIL_UPSTREAM,
    .SL_CPC_ENDPOINT_ZIGBEE, .SL_CPC_ENDPOINT_ZWAVE, .SL_CPC_ENDPOINT_CONNECT,
    sl_cpc_service_endpoint_id_t.SL_CPC_ENDPOINT_GPIO, .SL_CPC_ENDPOINT_OPENTHREAD,
    .SL_CPC_ENDPOINT_WISUN, .SL_CPC_ENDPOINT_WIFI, .SL_CPC_ENDPOINT_15_4,
    .SL_CPC_ENDPOINT_CLI ]

/-- All constructors of the endpoint state type, in declaration order. -/
def endpointStates : List cpc_endpoint_state_t :=
  [ .SL_CPC_STATE_OPEN, .SL_CPC_STATE_CLOSED, .SL_CPC_STATE_CLOSING,
    .SL_CPC_STATE_ERROR_DESTINATION_UNREACHABLE, .SL_CPC_STATE_ERROR_SECURITY_INCIDENT,
    .SL_CPC_STATE_ERROR_FAULT ]

/-- All constructors of the option kind type, in declaration order. -/
def optionKinds : List cpc_option_t :=
  [ .CPC_OPTION_NONE, .CPC_OPTION_BLOCKING, .CPC_OPTION_RX_TIMEOUT,
    .CPC_OPTION_TX_TIMEOUT, .CPC_OPTION_SOCKET_SIZE, .CPC_OPTION_MAX_WRITE_SIZE ]

/-! ## `gpio_sysfs.c`

The macros `FATAL_SYSCALL_ON` and `FATAL_ON` come from `cpcd/logging.h`, the
enumerators `GPIO_*` from `cpcd/gpio.h`; neither header is among the sources.  The
macros terminate the process when their condition holds; the enumerators are taken
as parameters (`gpio_h`). -/

/-- Termination of the process by the fatal check at a line of `gpio_sysfs.c`. -/
inductive Abort where
  | FATAL_SYSCALL_ON (line : Nat)
  | FATAL_ON (line : Nat)
  deriving DecidableEq, Repr

/-- How a C function ends: it returns a value or the process is terminated. -/
inductive Outcome (α : Type) where
  | returned (v : α)
  | aborted (a : Abort)
  deriving DecidableEq, Repr

/-- The enumerators of `cpcd/gpio.h` used by `gpio_sysfs.c`, as C integers. -/
structure gpio_h where
  GPIO_DIRECTION_IN : Int
  GPIO_DIRECTION_OUT : Int
  GPIO_EDGE_BOTH : Int
  GPIO_EDGE_FALLING : Int
  GPIO_EDGE_RISING : Int
  GPIO_VALUE_HIGH : Int
  GPIO_VALUE_LOW : Int

/-- Value of `errno` that lets the retry loop of `export` continue (Linux `EACCES`). -/
def EACCES : Int := 13

/-- Results of the system calls made by the sysfs helpers.
`open_ret path` and `write_ret path data` answer the `open` and `write` of
`simple_write`; `get_fd_open k` is the pair (result, `errno`) of the `open` in the
`k`-th call of `get_fd`; `zalloc_null` tells whether `zalloc` returned `NULL`. -/
structure Sys where
  open_ret : String → Int
  write_ret : String → String → Int
  get_fd_open : Nat → Int × Int
  zalloc_null : Bool

/-- Text printed by `snprintf(buf, 256, "%d", x)` for an `unsigned int` argument:
the 32-bit pattern read as a signed integer. -/
def fmt_d (x : Nat) : String :=
  if x % 2 ^ 32 < 2 ^ 31 then toString (x % 2 ^ 32) else "-" ++ toString (2 ^ 32 - x % 2 ^ 32)

/-- The function `simple_write(filename, data)`: `-1` when the file cannot be opened, otherwise
the result of writing `strlen(data)` bytes of `data`. -/
def simple_write (sys : Sys) (filename data : String) : Int :=
  if sys.open_ret filename < 0 then -1 else sys.write_ret filename data

/-- A call of `simple_write` made by a helper. -/
structure WriteCall where
  filename : String
  data : String
  deriving DecidableEq, Repr

/-- What a helper did: the `simple_write` calls it made and how it ended. -/
structure Run (α : Type) where
  calls : List WriteCall
  result : Outcome α

/-- What `export` did: number of `get_fd` calls, the arguments of `sleep_ms` in
order, the final value of `timeout`, and how the function ended. -/
structure ExportRun where
  attempts : Nat
  sleeps : List Nat
  timeout : Nat
  result : Outcome Int
  deriving DecidableEq, Repr

/-- The `for (;;)` loop of `export` (lines 64-73), entered with `attempts` earlier
calls of `get_fd`, the `uint32_t` variable `timeout`, and the sleeps done so far. -/
def export_loop (sys : Sys) (attempts timeout : Nat) (sleeps : List Nat) : ExportRun :=
  if 0 ≤ (sys.get_fd_open attempts).1 then
    ⟨attempts + 1, sleeps, timeout, .returned (sys.get_fd_open attempts).1⟩
  else if (sys.get_fd_open attempts).2 ≠ EACCES then
    ⟨attempts + 1, sleeps, timeout, .aborted (.FATAL_SYSCALL_ON 69)⟩
  else if 1000 < timeout then
    ⟨attempts + 1, sleeps, timeout, .aborted (.FATAL_ON 70)⟩
  else
    export_loop sys (attempts + 1) ((timeout + (timeout + 100) % 2 ^ 32) % 2 ^ 32)
      (sleeps ++ [(timeout + 100) % 2 ^ 32])
termination_by 1001 - timeout
decreasing_by omega

/-- The function `export` of `gpio_sysfs.c` (lines 48-76; the name is reserved in
Lean): write the pin number to the export file, then poll `get_fd`. -/
def gpio_export (sys : Sys) (gpio_pin : Nat) : ExportRun :=
  if simple_write sys "/sys/class/gpio/export" (fmt_d gpio_pin) < 0 then
    ⟨0, [], 0, .aborted (.FATAL_SYSCALL_ON 56)⟩
  else
    export_loop sys 0 0 []

/-- The function `unexport(gpio_pin)` (lines 78-84). -/
def unexport (sys : Sys) (gpio_pin : Nat) : Int :=
  simple_write sys "/sys/class/gpio/unexport" (fmt_d gpio_pin)

/-- The file name built by `snprintf` in `set_direction` (line 102). -/
def direction_file (pin : Nat) : String :=
  "/sys/class/gpio/gpio" ++ fmt_d pin ++ "/direction"

/-- The file name built by `snprintf` in `set_edge` (line 120). -/
def edge_file (pin : Nat) : String :=
  "/sys/class/gpio/gpio" ++ fmt_d pin ++ "/edge"

/-- The function `set_direction(gpio, direction)` (lines 97-113), `pin` being `gpio->pin`. -/
def set_direction (K : gpio_h) (sys : Sys) (pin : Nat) (direction : Int) : Run Int :=
  let buf := direction_file pin
  if direction = K.GPIO_DIRECTION_IN then
    ⟨[⟨buf, "in"⟩],
      if simple_write sys buf "in" ≠ 2 then .aborted (.FATAL_SYSCALL_ON 106)
      else .returned (simple_write sys buf "in")⟩
  else if direction = K.GPIO_DIRECTION_OUT then
    ⟨[⟨buf, "out"⟩],
      if simple_write sys buf "out" ≠ 3 then .aborted (.FATAL_SYSCALL_ON 109)
      else .returned (simple_write sys buf "out")⟩
  else
    ⟨[], .returned 0⟩

/-- The function `set_edge(gpio, edge)` (lines 115-134), `pin` being `gpio->pin`. -/
def set_edge (K : gpio_h) (sys : Sys) (pin : Nat) (edge : Int) : Run Int :=
  let buf := edge_file pin
  if edge = K.GPIO_EDGE_BOTH then
    ⟨[⟨buf, "both"⟩],
      if simple_write sys buf "both" ≠ 4 then .aborted (.FATAL_SYSCALL_ON 124)
      else .returned (simple_write sys buf "both")⟩
  else if edge = K.GPIO_EDGE_FALLING then
    ⟨[⟨buf, "falling"⟩],
      if simple_write sys buf "falling" ≠ 7 then .aborted (.FATAL_SYSCALL_ON 127)
      else .returned (simple_write sys buf "falling")⟩
  else if edge = K.GPIO_EDGE_RISING then
    ⟨[⟨buf, "rising"⟩],
      if simple_write sys buf "rising" ≠ 6 then .aborted (.FATAL_SYSCALL_ON 130)
      else .returned (simple_write sys buf "rising")⟩
  else
    ⟨[], .returned 0⟩

/-- The fields of `gpio_sysfs_t` set by `gpio_init`. -/
structure gpio_sysfs_t where
  value_fd : Int
  irq_fd : Int
  pin : Nat
  deriving DecidableEq, Repr

/-- The function `gpio_init(gpio_chip, gpio_pin, direction, edge)` (lines 136-158); `gpio_chip`
is unused by the function. -/
def gpio_init (K : gpio_h) (sys : Sys) (gpio_pin : Nat) (direction edge : Int) :
    Outcome gpio_sysfs_t :=
  if sys.zalloc_null then .aborted (.FATAL_SYSCALL_ON 143)
  else
    match (gpio_export sys gpio_pin).result with
    | .aborted a => .aborted a
    | .returned value_fd =>
      if (sys.get_fd_open (gpio_export sys gpio_pin).attempts).1 < 0 then
        .aborted (.FATAL_SYSCALL_ON 149)
      else
        match (set_direction K sys gpio_pin direction).result with
        | .aborted a => .aborted a
        | .returned d =>
          if d < 0 then .aborted (.FATAL_ON 153)
          else
            match (set_edge K sys gpio_pin edge).result with
            | .aborted a => .aborted a
            | .returned e =>
              if e < 0 then .aborted (.FATAL_ON 155)
              else .returned ⟨value_fd, (sys.get_fd_open (gpio_export sys gpio_pin).attempts).1,
                gpio_pin⟩

/-- What `gpio_write` did: the buffer handed to `write` on `value_fd` (with length
`strlen` of it), the final value of `ret`, and how the function ended. -/
structure GpioWriteRun where
  written : Option String
  ret : Int
  result : Outcome Unit
  deriving DecidableEq, Repr

/-- The function `gpio_write(gpio, value)` (lines 182-193); `write_ret data` is the result of the
`write` of `data` on `gpio->value_fd`. -/
def gpio_write (K : gpio_h) (write_ret : String → Int) (value : Int) : GpioWriteRun :=
  let step : Option String × Int :=
    if value = K.GPIO_VALUE_HIGH then (some "1", write_ret "1")
    else if value = K.GPIO_VALUE_LOW then (some "0", write_ret "0")
    else (none, 0)
  ⟨step.1, step.2, if step.2 ≠ 1 then .aborted (.FATAL_SYSCALL_ON 192) else .returned ()⟩

/-- The decoding at the end of `gpio_read` (lines 205-209). -/
def gpio_read_decode (K : gpio_h) (state : Char) : Int :=
  if state = '0' then K.GPIO_VALUE_LOW else K.GPIO_VALUE_HIGH

/-- The function `gpio_read(gpio)` (lines 195-210); `lseek_ret` and `read_ret` are the results of
the two system calls, `state` the byte left in the variable `state`. -/
def gpio_read (K : gpio_h) (lseek_ret read_ret : Int) (state : Char) : Outcome Int :=
  if lseek_ret < 0 then .aborted (.FATAL_SYSCALL_ON 201)
  else if read_ret < 0 then .aborted (.FATAL_SYSCALL_ON 203)
  else .returned (gpio_read_decode K state)

/-- Enumerator values used for concrete evaluations. -/
def gpio_h_example : gpio_h := ⟨0, 1, 2, 0, 1, 1, 0⟩

/-- A system in which every call succeeds at once: `write` reports the full length
and the first `get_fd` yields descriptor `k + 5`. -/
def sys_ok : Sys :=
  ⟨fun _ => 3, fun _ data => data.length, fun k => (k + 5, 0), false⟩

/-- A system in which `get_fd` is refused with `EACCES` on every call. -/
def sys_eacces : Sys :=
  ⟨fun _ => 3, fun _ data => data.length, fun _ => (-1, EACCES), false⟩

/-- The arguments of `sleep_ms` when every attempt is refused, in order. -/
def export_sleeps : List Nat := [100, 200, 400, 800]

/-- The calls `0 .. k-1` of `get_fd` all fail and all report `EACCES`. -/
def EaccesFailures (sys : Sys) (k : Nat) : Prop :=
  ∀ i, i < k → (sys.get_fd_open i).1 < 0 ∧ (sys.get_fd_open i).2 = EACCES

/-! ## Session, endpoint registry and option store

`sl_cpc.h` only declares `cpc_init`, `cpc_restart`, `cpc_open_endpoint`,
`cpc_close_endpoint`, `cpc_read_endpoint`, `cpc_write_endpoint`,
`cpc_set_endpoint_option` and `cpc_get_endpoint_option`; their bodies are not among
the sources.  The definitions of this section follow the specification (sections 3,
4 and 7) and the documentation attached to the declarations.  The daemon and the
clock are external: what they decide is an argument of the operation. -/

/-- The flag `SL_CPC_FLAG_NON_BLOCK` of `sl_cpc.h` line 32. -/
def SL_CPC_FLAG_NON_BLOCK : Nat := 1 <<< 0

/-- Modelled from the spec: the error kinds of section 7 (plus `OptionNotSettable`
of section 4.3); no error type is declared in the header.  `BufferTooSmall` reports
the required size. -/
inductive CpcError where
  | DaemonUnavailable
  | AlreadyInitialized
  | AlreadyOpen
  | InvalidWindowSize
  | InvalidOptionValue
  | OptionNotSettable
  | PayloadTooLarge
  | BufferTooSmall (required : Nat)
  | EndpointRejected
  | EndpointNotOpen
  | StaleHandle
  | WouldBlock
  | Timeout
  deriving DecidableEq, Repr

/-- Modelled from the spec: the result of an operation, a value or an error
("all failures are returned to the caller as explicit results"). -/
inductive Result (α : Type) where
  | ok (v : α)
  | error (e : CpcError)
  deriving DecidableEq, Repr

/-- Modelled from the spec: the value of an option; its shape depends on the kind
(boolean, duration, byte count). -/
inductive OptionValue where
  | boolean (b : Bool)
  | duration (d : Nat)
  | bytes (n : Nat)
  deriving DecidableEq, Repr

/-- Modelled from the spec: the OptionStore of one endpoint.  A timeout of `0` is
"no timeout" (the default); `max_write_size` is fixed by the daemon. -/
structure OptionStore where
  blocking : Bool
  rx_timeout : Nat
  tx_timeout : Nat
  socket_size : Nat
  max_write_size : Nat
  deriving DecidableEq, Repr

/-- Modelled from the spec: what the control connection negotiated with the daemon
(the frame size that fixes max-write-size, and the initial socket buffer size). -/
structure DaemonLink where
  max_write_size : Nat
  socket_size : Nat
  deriving DecidableEq, Repr

/-- Modelled from the spec: the Endpoint record owned by the registry (section 3). -/
structure Endpoint where
  id : Nat
  state : cpc_endpoint_state_t
  window : Nat
  generation : Nat
  options : OptionStore
  deriving DecidableEq, Repr

/-- Modelled from the spec: the EndpointHandle given to the application: a
non-owning reference to the record (its index in the registry), the endpoint id and
the generation at the moment of the open (invariant (c)). -/
structure EndpointHandle where
  index : Nat
  id : Nat
  generation : Nat
  deriving DecidableEq, Repr

/-- Modelled from the spec: the Session (section 3): the generation counter, the
registry of endpoint records, and the state of the control connection. -/
structure Session where
  generation : Nat
  registry : List Endpoint
  link : DaemonLink
  deriving DecidableEq, Repr

/-- Modelled from the spec: the "live handle" test of `open` (section 4.2; the body
of `cpc_open_endpoint` is not among the sources): a record of that id that is not
`CLOSED`. -/
def Endpoint.live (id : Nat) (r : Endpoint) : Bool :=
  r.id == id && r.state != cpc_endpoint_state_t.SL_CPC_STATE_CLOSED

/-- Replace the record at index `i` by its image under `f`. -/
def updateAt : List Endpoint → Nat → (Endpoint → Endpoint) → List Endpoint
  | [], _, _ => []
  | r :: rs, 0, f => f r :: rs
  | r :: rs, i + 1, f => r :: updateAt rs i f

/-- The session with the record at index `i` replaced by its image under `f`. -/
def Session.update (s : Session) (i : Nat) (f : Endpoint → Endpoint) : Session :=
  { s with registry := updateAt s.registry i f }

/-- Modelled from the spec: the record a handle refers to (section 9, registry
owning records by stable index; no body of the library is among the sources): the
one at the handle's index, if it has the handle's id and generation. -/
def Session.resolve (s : Session) (h : EndpointHandle) : Option Endpoint :=
  match s.registry[h.index]? with
  | some r => if r.id = h.id ∧ r.generation = h.generation then some r else none
  | none => none

/-- Modelled from the spec: `initialize` of section 4.1 (`cpc_init`, declared only).
`initialized` tells whether the process already holds a session, `daemon` what the
handshake with the daemon gave (`none`: not reachable). -/
def cpc_init (initialized : Bool) (daemon : Option DaemonLink) : Result Session :=
  if initialized then .error .AlreadyInitialized
  else
    match daemon with
    | none => .error .DaemonUnavailable
    | some l => .ok ⟨0, [], l⟩

/-- Modelled from the spec: `restart` of section 4.1 (`cpc_restart`, declared only).
On success the connection state is replaced, the generation counter is incremented
and no record of the previous generation is kept ("all state is in-memory for the
lifetime of the session generation"). -/
def cpc_restart (s : Session) (daemon : Option DaemonLink) : Session × Result Unit :=
  match daemon with
  | none => (s, .error .DaemonUnavailable)
  | some l => (⟨s.generation + 1, [], l⟩, .ok ())

/-- Modelled from the spec: the options of a freshly opened endpoint (section 4.4
defaults; the body of `cpc_open_endpoint` is not among the sources): blocking, no
timeouts, the socket size and max-write-size of the connection. -/
def OptionStore.initial (l : DaemonLink) : OptionStore :=
  ⟨true, 0, 0, l.socket_size, l.max_write_size⟩

/-- Modelled from the spec: `open` of section 4.2 (`cpc_open_endpoint`, declared
only).  The window size is an argument check and is made first (the declaration
documents that only a window of 1 is supported); then the registry is searched for
a live handle of the id; then the daemon decides (`daemon_accepts`). -/
def cpc_open_endpoint (s : Session) (id tx_window_size : Nat) (daemon_accepts : Bool) :
    Session × Result EndpointHandle :=
  if tx_window_size ≠ 1 then (s, .error .InvalidWindowSize)
  else if s.registry.any (Endpoint.live id) then (s, .error .AlreadyOpen)
  else if !daemon_accepts then (s, .error .EndpointRejected)
  else
    ({ s with registry := s.registry ++
        [⟨id, .SL_CPC_STATE_OPEN, tx_window_size, s.generation, OptionStore.initial s.link⟩] },
      .ok ⟨s.registry.length, id, s.generation⟩)

/-- Modelled from the spec: `close` of section 4.2 (`cpc_close_endpoint`, declared
only): `OPEN → CLOSING → CLOSED` in one call, no effect on a `CLOSED` handle, and
no transition out of an `ERROR_*` state (invariant (b)). -/
def cpc_close_endpoint (s : Session) (h : EndpointHandle) : Session × Result Unit :=
  if h.generation ≠ s.generation then (s, .error .StaleHandle)
  else
    match s.resolve h with
    | none => (s, .error .EndpointNotOpen)
    | some r =>
      match r.state with
      | .SL_CPC_STATE_OPEN | .SL_CPC_STATE_CLOSING =>
        (s.update h.index
          (fun e => { e with state := .SL_CPC_STATE_CLOSED }), .ok ())
      | _ => (s, .ok ())

/-- Modelled from the spec: the daemon pushes the endpoint `id` into an `ERROR_*`
state (section 4.2, last item): the `OPEN` records of that id take the state. -/
def daemon_error (s : Session) (id : Nat) (st : cpc_endpoint_state_t) : Session :=
  match st with
  | .SL_CPC_STATE_ERROR_DESTINATION_UNREACHABLE
  | .SL_CPC_STATE_ERROR_SECURITY_INCIDENT
  | .SL_CPC_STATE_ERROR_FAULT =>
    { s with registry := s.registry.map (fun r =>
        if r.id = id ∧ r.state = .SL_CPC_STATE_OPEN then { r with state := st } else r) }
  | _ => s

/-- Modelled from the spec: `set` of section 4.3 (`cpc_set_endpoint_option`,
declared only).  A stale handle fails first (invariant (c)); `max-write-size` is
read-only; the value must have the shape of the kind; a value that is accepted
becomes the current value of the kind ("effects are immediate"). -/
def cpc_set_endpoint_option (s : Session) (h : EndpointHandle) (option : cpc_option_t)
    (optval : OptionValue) : Session × Result Unit :=
  if h.generation ≠ s.generation then (s, .error .StaleHandle)
  else
    match s.resolve h with
    | none => (s, .error .EndpointNotOpen)
    | some _ =>
      match option, optval with
      | .CPC_OPTION_MAX_WRITE_SIZE, _ => (s, .error .OptionNotSettable)
      | .CPC_OPTION_BLOCKING, .boolean b =>
        (s.update h.index
          (fun e => { e with options := { e.options with blocking := b } }), .ok ())
      | .CPC_OPTION_RX_TIMEOUT, .duration d =>
        (s.update h.index
          (fun e => { e with options := { e.options with rx_timeout := d } }), .ok ())
      | .CPC_OPTION_TX_TIMEOUT, .duration d =>
        (s.update h.index
          (fun e => { e with options := { e.options with tx_timeout := d } }), .ok ())
      | .CPC_OPTION_SOCKET_SIZE, .bytes n =>
        (s.update h.index
          (fun e => { e with options := { e.options with socket_size := n } }), .ok ())
      | _, _ => (s, .error .InvalidOptionValue)

/-- Modelled from the spec: the current value of an option kind in a store, as
`get` of section 4.3 reads it (`none` for the kind `none`). -/
def OptionStore.value (o : OptionStore) : cpc_option_t → Option OptionValue
  | .CPC_OPTION_NONE => none
  | .CPC_OPTION_BLOCKING => some (.boolean o.blocking)
  | .CPC_OPTION_RX_TIMEOUT => some (.duration o.rx_timeout)
  | .CPC_OPTION_TX_TIMEOUT => some (.duration o.tx_timeout)
  | .CPC_OPTION_SOCKET_SIZE => some (.bytes o.socket_size)
  | .CPC_OPTION_MAX_WRITE_SIZE => some (.bytes o.max_write_size)

/-- Modelled from the spec: `get` of section 4.3 (`cpc_get_endpoint_option`,
declared only): the current value and its true size, `BufferTooSmall` with the
required size when `optlen` is too small.  `value_size` gives the size in bytes of
the value of each kind. -/
def cpc_get_endpoint_option (value_size : cpc_option_t → Nat) (s : Session)
    (h : EndpointHandle) (option : cpc_option_t) (optlen : Nat) :
    Result (OptionValue × Nat) :=
  if h.generation ≠ s.generation then .error .StaleHandle
  else
    match s.resolve h with
    | none => .error .EndpointNotOpen
    | some r =>
      match r.options.value option with
      | none => .error .InvalidOptionValue
      | some v =>
        if optlen < value_size option then .error (.BufferTooSmall (value_size option))
        else .ok (v, value_size option)

/-- Modelled from the spec: what the channel and the clock decide for a `write`
(section 4.4): the window slot is free, or it is occupied and the acknowledgement
comes before the TX deadline, or it is occupied and the deadline passes. -/
inductive TxEvent where
  | slot_free
  | acknowledged_in_time
  | deadline_expired
  deriving DecidableEq, Repr

/-- Modelled from the spec: what the channel and the clock decide for a `read`
(section 4.4): a message is available, or one arrives before the RX deadline, or
nothing is available and the deadline passes. -/
inductive RxEvent where
  | available (msg : List Nat)
  | arrives_in_time (msg : List Nat)
  | deadline_expired
  deriving DecidableEq, Repr

/-- Modelled from the spec: a call is non-blocking when the per-call flag is set or
the persistent blocking-mode option is off (section 6; the bodies of the read and
write calls are not among the sources). -/
def nonBlocking (flags : Nat) (o : OptionStore) : Bool :=
  flags &&& SL_CPC_FLAG_NON_BLOCK != 0 || !o.blocking

/-- Modelled from the spec: `write` of section 4.4 (`cpc_write_endpoint`, declared
only); the result is the number of bytes written. -/
def cpc_write_endpoint (s : Session) (h : EndpointHandle) (data : List Nat) (flags : Nat)
    (ev : TxEvent) : Result Nat :=
  if h.generation ≠ s.generation then .error .StaleHandle
  else
    match s.resolve h with
    | none => .error .EndpointNotOpen
    | some r =>
      if r.state ≠ .SL_CPC_STATE_OPEN then .error .EndpointNotOpen
      else if r.options.max_write_size < data.length then .error .PayloadTooLarge
      else
        match ev with
        | .slot_free => .ok data.length
        | .acknowledged_in_time =>
          if nonBlocking flags r.options then .error .WouldBlock else .ok data.length
        | .deadline_expired =>
          if nonBlocking flags r.options then .error .WouldBlock else .error .Timeout

/-- Modelled from the spec: `read` of section 4.4 (`cpc_read_endpoint`, declared
only); the result is the bytes copied, at most `count` of the next message. -/
def cpc_read_endpoint (s : Session) (h : EndpointHandle) (count : Nat) (flags : Nat)
    (ev : RxEvent) : Result (List Nat) :=
  if h.generation ≠ s.generation then .error .StaleHandle
  else
    match s.resolve h with
    | none => .error .EndpointNotOpen
    | some r =>
      if r.state ≠ .SL_CPC_STATE_OPEN then .error .EndpointNotOpen
      else
        match ev with
        | .available msg => .ok (msg.take count)
        | .arrives_in_time msg =>
          if nonBlocking flags r.options then .error .WouldBlock else .ok (msg.take count)
        | .deadline_expired =>
          if nonBlocking flags r.options then .error .WouldBlock else .error .Timeout

/-- An event of a session: a call of the application that can change the session,
or a state change pushed by the daemon. -/
inductive Event where
  | open_endpoint (id tx_window_size : Nat) (daemon_accepts : Bool)
  | close_endpoint (h : EndpointHandle)
  | restart (daemon : Option DaemonLink)
  | set_endpoint_option (h : EndpointHandle) (option : cpc_option_t) (optval : OptionValue)
  | daemon_error (id : Nat) (st : cpc_endpoint_state_t)
  deriving DecidableEq, Repr

/-- The session after an event. -/
def Session.step (s : Session) : Event → Session
  | .open_endpoint id w acc => (cpc_open_endpoint s id w acc).1
  | .close_endpoint h => (cpc_close_endpoint s h).1
  | .restart daemon => (cpc_restart s daemon).1
  | .set_endpoint_option h option optval => (cpc_set_endpoint_option s h option optval).1
  | .daemon_error id st => daemon_error s id st

/-- The session after a sequence of events. -/
def Session.run (s : Session) (evs : List Event) : Session :=
  evs.foldl Session.step s

/-- The sessions that can arise: the session of a successful `cpc_init` (generation
0, empty registry) followed by events. -/
def Reachable (s : Session) : Prop :=
  ∃ (l : DaemonLink) (evs : List Event), s = Session.run ⟨0, [], l⟩ evs

/-- At most one record per endpoint id holds a live handle. -/
def OneLivePerId (s : Session) : Prop :=
  ∀ (i j : Nat) (ri rj : Endpoint), s.registry[i]? = some ri → s.registry[j]? = some rj →
    ri.id = rj.id → ri.live ri.id = true → rj.live rj.id = true → i = j

/-- A connection used for concrete evaluations. -/
def link_example : DaemonLink := ⟨4087, 212992⟩

/-- Sizes of the option values used for concrete evaluations. -/
def value_size_example : cpc_option_t → Nat
  | .CPC_OPTION_NONE => 0
  | .CPC_OPTION_BLOCKING => 1
  | .CPC_OPTION_RX_TIMEOUT => 16
  | .CPC_OPTION_TX_TIMEOUT => 16
  | .CPC_OPTION_SOCKET_SIZE => 4
  | .CPC_OPTION_MAX_WRITE_SIZE => 8

/-- The handle `h` is held in `s`: it is of the current generation and its record
is in the registry and not `CLOSED`. -/
def Held (s : Session) (h : EndpointHandle) : Prop :=
  s.generation = h.generation ∧ ∃ r, s.registry[h.index]? = some r ∧ r.id = h.id
    ∧ r.generation = h.generation ∧ r.state ≠ cpc_endpoint_state_t.SL_CPC_STATE_CLOSED

/-- Every record of `l'` stands at the index of a record of `l` with the same id,
generation and max-write-size, and is `CLOSED` whenever that one is. -/
def Refines (l l' : List Endpoint) : Prop :=
  ∀ (j : Nat) (r' : Endpoint), l'[j]? = some r' → ∃ r, l[j]? = some r ∧ r'.id = r.id
    ∧ r'.generation = r.generation ∧ r'.options.max_write_size = r.options.max_write_size
    ∧ (r'.state ≠ cpc_endpoint_state_t.SL_CPC_STATE_CLOSED →
        r.state ≠ cpc_endpoint_state_t.SL_CPC_STATE_CLOSED)

/-- A function on records that keeps the id, the generation and max-write-size and
does not reopen a `CLOSED` record. -/
def KeepsIdentity (f : Endpoint → Endpoint) : Prop :=
  ∀ e, (f e).id = e.id ∧ (f e).generation = e.generation
    ∧ (f e).options.max_write_size = e.options.max_write_size
    ∧ ((f e).state ≠ cpc_endpoint_state_t.SL_CPC_STATE_CLOSED →
        e.state ≠ cpc_endpoint_state_t.SL_CPC_STATE_CLOSED)

/-- Every record carries the max-write-size negotiated by the connection. -/
def MaxWriteNegotiated (s : Session) : Prop :=
  ∀ (j : Nat) (r : Endpoint), s.registry[j]? = some r →
    r.options.max_write_size = s.link.max_write_size

/-- A fresh session used for concrete evaluations. -/
def session_example : Session := ⟨0, [], link_example⟩

/-- The handle returned by the first open of user endpoint 90 on `session_example`. -/
def handle_example : EndpointHandle := ⟨0, 90, 0⟩

/-- The session after opening user endpoint 90 on `session_example`. -/
def opened_example : Session := (cpc_open_endpoint session_example 90 1 true).1

/-! ## Theorems: enumerations -/

/-- C1: the service enumeration has exactly 14 members whose values are 0..13 in the
declared order (system, security, bluetooth, rail-downstream, rail-upstream, zigbee,
z-wave, connect, gpio, openthread, wisun, wifi, 802.15.4, cli), the user enumeration
has exactly 10 members with `USER_ID_k = 90 + k`, the id mapping on the declared
endpoints is injective, the two ranges are disjoint, and every value is below 256. -/
theorem C1_endpoint_id_space :
    (enumValues sl_cpc_service_endpoint_id_t_decl 0).map Prod.snd = List.range 14
    ∧ (enumValues sl_cpc_service_endpoint_id_t_decl 0).map Prod.fst
        = [ "SL_CPC_ENDPOINT_SYSTEM", "SL_CPC_ENDPOINT_SECURITY", "SL_CPC_ENDPOINT_BLUETOOTH",
            "SL_CPC_SLI_CPC_ENDPOINT_RAIL_DOWNSTREAM", "SL_CPC_SLI_CPC_ENDPOINT_RAIL_UPSTREAM",
            "SL_CPC_ENDPOINT_ZIGBEE", "SL_CPC_ENDPOINT_ZWAVE", "SL_CPC_ENDPOINT_CONNECT",
            "SL_CPC_ENDPOINT_GPIO", "SL_CPC_ENDPOINT_OPENTHREAD", "SL_CPC_ENDPOINT_WISUN",
            "SL_CPC_ENDPOINT_WIFI", "SL_CPC_ENDPOINT_15_4", "SL_CPC_ENDPOINT_CLI" ]
    ∧ (enumValues sl_cpc_user_endpoint_id_t_decl 0).map Prod.snd
        = (List.range 10).map (fun k => 90 + k)
    ∧ Fintype.card sl_cpc_service_endpoint_id_t = 14
    ∧ (∀ s : sl_cpc_service_endpoint_id_t, s ∈ serviceEndpoints)
    ∧ serviceEndpoints.map sl_cpc_service_endpoint_id_t.val = List.range 14
    ∧ Fintype.card sl_cpc_user_endpoint_id_t = 10
    ∧ Function.Bijective sl_cpc_user_endpoint_id_t.ofIndex
    ∧ (∀ k : Fin 10, (sl_cpc_user_endpoint_id_t.ofIndex k).val = 90 + k.val)
    ∧ Function.Injective DeclaredEndpointId.val
    ∧ (∀ (s : sl_cpc_service_endpoint_id_t) (u : sl_cpc_user_endpoint_id_t), s.val ≠ u.val)
    ∧ (∀ s : sl_cpc_service_endpoint_id_t, s.val ≤ 13)
    ∧ (∀ u : sl_cpc_user_endpoint_id_t, 90 ≤ u.val ∧ u.val ≤ 99)
    ∧ (∀ e : DeclaredEndpointId, e.val < 2 ^ 8) := by
  refine ⟨by decide, by decide, by decide, by decide, by decide, by decide, by decide,
    ?_, by decide, ?_, by decide, by decide, by decide, ?_⟩
  · constructor
    · intro a b; revert a b; decide
    · intro u; cases u
      · exact ⟨0, rfl⟩
      · exact ⟨1, rfl⟩
      · exact ⟨2, rfl⟩
      · exact ⟨3, rfl⟩
      · exact ⟨4, rfl⟩
      · exact ⟨5, rfl⟩
      · exact ⟨6, rfl⟩
      · exact ⟨7, rfl⟩
      · exact ⟨8, rfl⟩
      · exact ⟨9, rfl⟩
  · intro a b
    rcases a with a | a <;> rcases b with b | b <;> cases a <;> cases b <;>
      simp [DeclaredEndpointId.val, sl_cpc_service_endpoint_id_t.val,
        sl_cpc_user_endpoint_id_t.val]
  · intro e
    rcases e with s | u
    · cases s <;> simp [DeclaredEndpointId.val, sl_cpc_service_endpoint_id_t.val]
    · cases u <;> simp [DeclaredEndpointId.val, sl_cpc_user_endpoint_id_t.val]

/-- C2: the endpoint state type has exactly the six states OPEN, CLOSED, CLOSING,
ERROR_DESTINATION_UNREACHABLE, ERROR_SECURITY_INCIDENT, ERROR_FAULT, encoded 0..5 in
that order, the encodings are pairwise distinct, and OPEN is the zero value. -/
theorem C2_endpoint_state_encoding :
    enumValues cpc_endpoint_state_t_decl 0
        = [ ("SL_CPC_STATE_OPEN", 0), ("SL_CPC_STATE_CLOSED", 1), ("SL_CPC_STATE_CLOSING", 2),
            ("SL_CPC_STATE_ERROR_DESTINATION_UNREACHABLE", 3),
            ("SL_CPC_STATE_ERROR_SECURITY_INCIDENT", 4), ("SL_CPC_STATE_ERROR_FAULT", 5) ]
    ∧ Fintype.card cpc_endpoint_state_t = 6
    ∧ (∀ s : cpc_endpoint_state_t, s ∈ endpointStates)
    ∧ endpointStates.map cpc_endpoint_state_t.val = [0, 1, 2, 3, 4, 5]
    ∧ Function.Injective cpc_endpoint_state_t.val
    ∧ (∀ s : cpc_endpoint_state_t,
        s.val = 0 ↔ s = cpc_endpoint_state_t.SL_CPC_STATE_OPEN) := by
  refine ⟨by decide, by decide, by decide, by decide, ?_, by decide⟩
  intro a b; revert a b; decide

/-- C3: the option kind type has exactly the six kinds none, blocking-mode, rx-timeout,
tx-timeout, socket-buffer-size, max-write-size, encoded 0..5 in that order with
none = 0, and the encodings are pairwise distinct. -/
theorem C3_option_kind_encoding :
    enumValues cpc_option_t_decl 0
        = [ ("CPC_OPTION_NONE", 0), ("CPC_OPTION_BLOCKING", 1), ("CPC_OPTION_RX_TIMEOUT", 2),
            ("CPC_OPTION_TX_TIMEOUT", 3), ("CPC_OPTION_SOCKET_SIZE", 4),
            ("CPC_OPTION_MAX_WRITE_SIZE", 5) ]
    ∧ Fintype.card cpc_option_t = 6
    ∧ (∀ k : cpc_option_t, k ∈ optionKinds)
    ∧ optionKinds.map cpc_option_t.val = [0, 1, 2, 3, 4, 5]
    ∧ Function.Injective cpc_option_t.val
    ∧ (∀ k : cpc_option_t, k.val = 0 ↔ k = cpc_option_t.CPC_OPTION_NONE) := by
  refine ⟨by decide, by decide, by decide, by decide, ?_, by decide⟩
  intro a b; revert a b; decide

/-! ## Theorems: `gpio_sysfs.c` -/

/-- One iteration of the loop of `export` that ends with `break`. -/
lemma export_loop_break (sys : Sys) (a t : Nat) (s : List Nat)
    (h : 0 ≤ (sys.get_fd_open a).1) :
    export_loop sys a t s = ⟨a + 1, s, t, .returned (sys.get_fd_open a).1⟩ := by
  rw [export_loop]; simp [h]

/-- One iteration of the loop of `export` that fails with another `errno`. -/
lemma export_loop_errno (sys : Sys) (a t : Nat) (s : List Nat)
    (h : (sys.get_fd_open a).1 < 0) (he : (sys.get_fd_open a).2 ≠ EACCES) :
    export_loop sys a t s = ⟨a + 1, s, t, .aborted (.FATAL_SYSCALL_ON 69)⟩ := by
  rw [export_loop]; simp [not_le.mpr h, he]

/-- One iteration of the loop of `export` that hits the timeout check. -/
lemma export_loop_timeout (sys : Sys) (a t : Nat) (s : List Nat)
    (h : (sys.get_fd_open a).1 < 0) (he : (sys.get_fd_open a).2 = EACCES) (ht : 1000 < t) :
    export_loop sys a t s = ⟨a + 1, s, t, .aborted (.FATAL_ON 70)⟩ := by
  rw [export_loop]; simp [not_le.mpr h, he, ht]

/-- One iteration of the loop of `export` that sleeps and retries. -/
lemma export_loop_retry (sys : Sys) (a t : Nat) (s : List Nat)
    (h : (sys.get_fd_open a).1 < 0) (he : (sys.get_fd_open a).2 = EACCES) (ht : t ≤ 1000) :
    export_loop sys a t s = export_loop sys (a + 1) (2 * t + 100) (s ++ [t + 100]) := by
  have e1 : (t + 100) % 2 ^ 32 = t + 100 := by omega
  have e2 : (t + (t + 100)) % 2 ^ 32 = 2 * t + 100 := by omega
  rw [export_loop, if_neg (not_le.mpr h), if_neg (not_not.mpr he), if_neg (not_lt.mpr ht),
    e1, e2]

/-- After `k ≤ 4` refused attempts the loop is in the state with
`timeout = 100 * (2 ^ k - 1)` and the first `k` sleeps done. -/
lemma export_loop_after_refusals (sys : Sys) (k : Nat) (hk : k ≤ 4) (h : EaccesFailures sys k) :
    export_loop sys 0 0 [] = export_loop sys k (100 * (2 ^ k - 1)) (export_sleeps.take k) := by
  have h0 := h 0
  have h1 := h 1
  have h2 := h 2
  have h3 := h 3
  interval_cases k
  · simp
  · rw [export_loop_retry sys 0 0 [] (h0 (by omega)).1 (h0 (by omega)).2 (by omega)]
    simp [export_sleeps]
  · rw [export_loop_retry sys 0 0 [] (h0 (by omega)).1 (h0 (by omega)).2 (by omega),
      export_loop_retry sys 1 _ _ (h1 (by omega)).1 (h1 (by omega)).2 (by omega)]
    simp [export_sleeps]
  · rw [export_loop_retry sys 0 0 [] (h0 (by omega)).1 (h0 (by omega)).2 (by omega),
      export_loop_retry sys 1 _ _ (h1 (by omega)).1 (h1 (by omega)).2 (by omega),
      export_loop_retry sys 2 _ _ (h2 (by omega)).1 (h2 (by omega)).2 (by omega)]
    simp [export_sleeps]
  · rw [export_loop_retry sys 0 0 [] (h0 (by omega)).1 (h0 (by omega)).2 (by omega),
      export_loop_retry sys 1 _ _ (h1 (by omega)).1 (h1 (by omega)).2 (by omega),
      export_loop_retry sys 2 _ _ (h2 (by omega)).1 (h2 (by omega)).2 (by omega),
      export_loop_retry sys 3 _ _ (h3 (by omega)).1 (h3 (by omega)).2 (by omega)]
    simp [export_sleeps]

/-- The possible ends of the loop of `export` from a state reached after `k ≤ 4`
refused attempts: it stops at attempt `j + 1` for some `k ≤ j ≤ 4`. -/
lemma export_loop_end (sys : Sys) (n k : Nat) (hk : k + n = 4) :
    (∃ j, k ≤ j ∧ j ≤ 4 ∧ EaccesFailures sys j ∧
      ((0 ≤ (sys.get_fd_open j).1 ∧
          export_loop sys 0 0 [] = ⟨j + 1, export_sleeps.take j, 100 * (2 ^ j - 1),
            .returned (sys.get_fd_open j).1⟩)
        ∨ ((sys.get_fd_open j).1 < 0 ∧ (sys.get_fd_open j).2 ≠ EACCES ∧
          export_loop sys 0 0 [] = ⟨j + 1, export_sleeps.take j, 100 * (2 ^ j - 1),
            .aborted (.FATAL_SYSCALL_ON 69)⟩)
        ∨ (j = 4 ∧ (sys.get_fd_open j).1 < 0 ∧ (sys.get_fd_open j).2 = EACCES ∧
          export_loop sys 0 0 [] = ⟨5, export_sleeps, 1500, .aborted (.FATAL_ON 70)⟩)))
      ∨ ¬ EaccesFailures sys k := by
  induction n generalizing k with
  | zero =>
    by_cases hf : EaccesFailures sys k
    · left
      have hk4 : k = 4 := by omega
      subst hk4
      refine ⟨4, le_refl _, le_refl _, hf, ?_⟩
      rw [export_loop_after_refusals sys 4 (le_refl _) hf]
      by_cases h1 : 0 ≤ (sys.get_fd_open 4).1
      · exact Or.inl ⟨h1, export_loop_break sys _ _ _ h1⟩
      · have h1 : (sys.get_fd_open 4).1 < 0 := not_le.mp h1
        by_cases h2 : (sys.get_fd_open 4).2 = EACCES
        · refine Or.inr (Or.inr ⟨rfl, h1, h2, ?_⟩)
          rw [export_loop_timeout sys _ _ _ h1 h2 (by norm_num)]
          simp [export_sleeps]
        · exact Or.inr (Or.inl ⟨h1, h2, export_loop_errno sys _ _ _ h1 h2⟩)
    · exact Or.inr hf
  | succ n ih =>
    by_cases hf : EaccesFailures sys k
    · left
      by_cases h1 : 0 ≤ (sys.get_fd_open k).1
      · refine ⟨k, le_refl _, by omega, hf, Or.inl ⟨h1, ?_⟩⟩
        rw [export_loop_after_refusals sys k (by omega) hf]
        exact export_loop_break sys _ _ _ h1
      · have h1 : (sys.get_fd_open k).1 < 0 := not_le.mp h1
        by_cases h2 : (sys.get_fd_open k).2 = EACCES
        · have hf1 : EaccesFailures sys (k + 1) := by
            intro i hi
            rcases Nat.lt_succ_iff_lt_or_eq.mp hi with hlt | heq
            · exact hf i hlt
            · subst heq; exact ⟨h1, h2⟩
          rcases ih (k + 1) (by omega) with ⟨j, hj1, hj2, hj3, hj4⟩ | hneg
          · exact ⟨j, by omega, hj2, hj3, hj4⟩
          · exact absurd hf1 hneg
        · refine ⟨k, le_refl _, by omega, hf, Or.inr (Or.inl ⟨h1, h2, ?_⟩)⟩
          rw [export_loop_after_refusals sys k (by omega) hf]
          exact export_loop_errno sys _ _ _ h1 h2
    · exact Or.inr hf

/-- No attempt is refused before the first one. -/
lemma eaccesFailures_zero (sys : Sys) : EaccesFailures sys 0 := by
  intro i hi; omega

/-- C8: the retry loop of `export` ends for every sequence of `get_fd` outcomes.
It stops at attempt `j + 1` for some `j ≤ 4` after `j` refusals with `EACCES`, with
`timeout = 100 * (2 ^ j - 1)` and the sleeps the first `j` of 100, 200, 400, 800 ms:
either `get_fd` gave a non-negative descriptor, or it failed with another `errno`
(abort at once), or it is the fifth refusal and the check `timeout > 1000` fires.
So at most 5 attempts are made and at most 1500 ms are slept; after `k ≤ 4` refusals
the loop state has `timeout = 100 * (2 ^ k - 1)`. -/
theorem C8_export_retry_loop (sys : Sys) (gpio_pin : Nat) :
    (∃ j, j ≤ 4 ∧ EaccesFailures sys j ∧
      (export_loop sys 0 0 []).attempts = j + 1 ∧
      (export_loop sys 0 0 []).sleeps = export_sleeps.take j ∧
      (export_loop sys 0 0 []).timeout = 100 * (2 ^ j - 1) ∧
      ((0 ≤ (sys.get_fd_open j).1 ∧
          (export_loop sys 0 0 []).result = .returned (sys.get_fd_open j).1)
        ∨ ((sys.get_fd_open j).1 < 0 ∧ (sys.get_fd_open j).2 ≠ EACCES ∧
          (export_loop sys 0 0 []).result = .aborted (.FATAL_SYSCALL_ON 69))
        ∨ (j = 4 ∧ (sys.get_fd_open j).1 < 0 ∧ (sys.get_fd_open j).2 = EACCES ∧
          (export_loop sys 0 0 []).result = .aborted (.FATAL_ON 70))))
    ∧ (export_loop sys 0 0 []).attempts ≤ 5
    ∧ (export_loop sys 0 0 []).sleeps.sum ≤ 1500
    ∧ (∀ k, k ≤ 4 → EaccesFailures sys k →
        export_loop sys 0 0 [] = export_loop sys k (100 * (2 ^ k - 1)) (export_sleeps.take k))
    ∧ (EaccesFailures sys 5 →
        export_loop sys 0 0 [] = ⟨5, [100, 200, 400, 800], 1500, .aborted (.FATAL_ON 70)⟩)
    ∧ (∀ k, k ≤ 4 → EaccesFailures sys k → (sys.get_fd_open k).1 < 0 →
        (sys.get_fd_open k).2 ≠ EACCES →
        export_loop sys 0 0 [] = ⟨k + 1, export_sleeps.take k, 100 * (2 ^ k - 1),
          .aborted (.FATAL_SYSCALL_ON 69)⟩)
    ∧ (gpio_export sys gpio_pin).attempts ≤ 5
    ∧ (gpio_export sys gpio_pin).sleeps.sum ≤ 1500
    ∧ ((∃ fd, 0 ≤ fd ∧ (gpio_export sys gpio_pin).result = .returned fd)
        ∨ ∃ a, (gpio_export sys gpio_pin).result = .aborted a) := by
  have main : ∃ j, j ≤ 4 ∧ EaccesFailures sys j ∧
      (export_loop sys 0 0 []).attempts = j + 1 ∧
      (export_loop sys 0 0 []).sleeps = export_sleeps.take j ∧
      (export_loop sys 0 0 []).timeout = 100 * (2 ^ j - 1) ∧
      ((0 ≤ (sys.get_fd_open j).1 ∧
          (export_loop sys 0 0 []).result = .returned (sys.get_fd_open j).1)
        ∨ ((sys.get_fd_open j).1 < 0 ∧ (sys.get_fd_open j).2 ≠ EACCES ∧
          (export_loop sys 0 0 []).result = .aborted (.FATAL_SYSCALL_ON 69))
        ∨ (j = 4 ∧ (sys.get_fd_open j).1 < 0 ∧ (sys.get_fd_open j).2 = EACCES ∧
          (export_loop sys 0 0 []).result = .aborted (.FATAL_ON 70))) := by
    rcases export_loop_end sys 4 0 (by omega) with ⟨j, _, hj2, hj3, hj4⟩ | hneg
    · refine ⟨j, hj2, hj3, ?_⟩
      rcases hj4 with ⟨h1, e⟩ | ⟨h1, h2, e⟩ | ⟨h0, h1, h2, e⟩
      · rw [e]; exact ⟨rfl, rfl, rfl, Or.inl ⟨h1, rfl⟩⟩
      · rw [e]; exact ⟨rfl, rfl, rfl, Or.inr (Or.inl ⟨h1, h2, rfl⟩)⟩
      · subst h0; rw [e]
        exact ⟨rfl, by simp [export_sleeps], by norm_num, Or.inr (Or.inr ⟨rfl, h1, h2, rfl⟩)⟩
    · exact absurd (eaccesFailures_zero sys) hneg
  have hatt : (export_loop sys 0 0 []).attempts ≤ 5 := by
    rcases main with ⟨j, hj, _, ha, _⟩
    omega
  have hsum : (export_loop sys 0 0 []).sleeps.sum ≤ 1500 := by
    rcases main with ⟨j, hj, _, _, hs, _⟩
    rw [hs]
    interval_cases j <;> simp [export_sleeps]
  have hres : (∃ fd, 0 ≤ fd ∧ (export_loop sys 0 0 []).result = .returned fd)
      ∨ ∃ a, (export_loop sys 0 0 []).result = .aborted a := by
    rcases main with ⟨j, _, _, _, _, _, h | h | h⟩
    · exact Or.inl ⟨_, h.1, h.2⟩
    · exact Or.inr ⟨_, h.2.2⟩
    · exact Or.inr ⟨_, h.2.2.2⟩
  refine ⟨main, hatt, hsum, fun k hk hf => export_loop_after_refusals sys k hk hf, ?_, ?_, ?_, ?_, ?_⟩
  · intro h5
    have h4 : EaccesFailures sys 4 := fun i hi => h5 i (by omega)
    rw [export_loop_after_refusals sys 4 (le_refl _) h4,
      export_loop_timeout sys _ _ _ (h5 4 (by omega)).1 (h5 4 (by omega)).2 (by norm_num)]
    simp [export_sleeps]
  · intro k hk hf h1 h2
    rw [export_loop_after_refusals sys k hk hf]
    exact export_loop_errno sys _ _ _ h1 h2
  · unfold gpio_export
    split
    · simp
    · exact hatt
  · unfold gpio_export
    split
    · simp
    · exact hsum
  · unfold gpio_export
    split
    · exact Or.inr ⟨_, rfl⟩
    · exact hres

/-- C8 evaluated on a system that refuses every attempt with `EACCES`: five attempts,
sleeps of 100, 200, 400 and 800 ms, then the timeout check aborts. -/
theorem C8_export_retry_loop_witness :
    export_loop sys_eacces 0 0 [] = ⟨5, [100, 200, 400, 800], 1500, .aborted (.FATAL_ON 70)⟩ :=
  (C8_export_retry_loop sys_eacces 0).2.2.2.2.1
    (fun _ _ => ⟨by simp [sys_eacces], by simp [sys_eacces]⟩)

/-- The fatal checks that can end `export`. -/
lemma gpio_export_abort (sys : Sys) (gpio_pin : Nat) (a : Abort)
    (h : (gpio_export sys gpio_pin).result = .aborted a) :
    a = .FATAL_SYSCALL_ON 56 ∨ a = .FATAL_SYSCALL_ON 69 ∨ a = .FATAL_ON 70 := by
  unfold gpio_export at h
  split at h
  · simp at h; exact Or.inl h.symm
  · rcases export_loop_end sys 4 0 (by omega) with ⟨j, _, _, _, hj⟩ | hneg
    · rcases hj with ⟨_, e⟩ | ⟨_, _, e⟩ | ⟨_, _, _, e⟩
      · rw [e] at h; simp at h
      · rw [e] at h; simp at h; exact Or.inr (Or.inl h.symm)
      · rw [e] at h; simp at h; exact Or.inr (Or.inr h.symm)
    · exact absurd (eaccesFailures_zero sys) hneg

/-- The fatal checks that can end `set_direction`. -/
lemma set_direction_abort (K : gpio_h) (sys : Sys) (pin : Nat) (direction : Int) (a : Abort)
    (h : (set_direction K sys pin direction).result = .aborted a) :
    a = .FATAL_SYSCALL_ON 106 ∨ a = .FATAL_SYSCALL_ON 109 := by
  unfold set_direction at h
  simp only at h
  split_ifs at h <;> simp at h
  · exact Or.inl h.symm
  · exact Or.inr h.symm

/-- The fatal checks that can end `set_edge`. -/
lemma set_edge_abort (K : gpio_h) (sys : Sys) (pin : Nat) (edge : Int) (a : Abort)
    (h : (set_edge K sys pin edge).result = .aborted a) :
    a = .FATAL_SYSCALL_ON 124 ∨ a = .FATAL_SYSCALL_ON 127 ∨ a = .FATAL_SYSCALL_ON 130 := by
  unfold set_edge at h
  simp only at h
  split_ifs at h <;> simp at h
  · exact Or.inl h.symm
  · exact Or.inr (Or.inl h.symm)
  · exact Or.inr (Or.inr h.symm)

/-- A value returned by `set_direction` is not negative. -/
lemma set_direction_nonneg (K : gpio_h) (sys : Sys) (pin : Nat) (direction r : Int)
    (hr : (set_direction K sys pin direction).result = .returned r) : 0 ≤ r := by
  unfold set_direction at hr
  simp only at hr
  split_ifs at hr <;> simp at hr <;> omega

/-- A value returned by `set_edge` is not negative. -/
lemma set_edge_nonneg (K : gpio_h) (sys : Sys) (pin : Nat) (edge r : Int)
    (hr : (set_edge K sys pin edge).result = .returned r) : 0 ≤ r := by
  unfold set_edge at hr
  simp only at hr
  split_ifs at hr <;> simp at hr <;> omega

/-- The checks of lines 153 and 155 never end `gpio_init`. -/
lemma gpio_init_fatal_on (K : gpio_h) (sys : Sys) (pin : Nat) (direction edge : Int)
    (n : Nat) (hn : n = 153 ∨ n = 155) :
    gpio_init K sys pin direction edge ≠ .aborted (.FATAL_ON n) := by
  intro hinit
  unfold gpio_init at hinit
  by_cases hz : sys.zalloc_null = true
  · simp [hz] at hinit
  · simp only [hz] at hinit
    cases hx : (gpio_export sys pin).result with
    | aborted a =>
      simp [hx] at hinit
      subst hinit
      rcases gpio_export_abort sys pin _ hx with h | h | h <;> rcases hn with rfl | rfl <;>
        simp at h
    | returned fd =>
      simp only [hx] at hinit
      by_cases hirq : (sys.get_fd_open (gpio_export sys pin).attempts).1 < 0
      · simp [hirq] at hinit
      · simp only [hirq] at hinit
        cases hdr : (set_direction K sys pin direction).result with
        | aborted a =>
          simp [hdr] at hinit
          subst hinit
          rcases set_direction_abort K sys pin direction _ hdr with h | h <;> simp at h
        | returned d =>
          have hd0 := set_direction_nonneg K sys pin direction d hdr
          simp only [hdr, not_lt.mpr hd0] at hinit
          cases her : (set_edge K sys pin edge).result with
          | aborted a =>
            simp [her] at hinit
            subst hinit
            rcases set_edge_abort K sys pin edge _ her with h | h | h <;> simp at h
          | returned e =>
            have he0 := set_edge_nonneg K sys pin edge e her
            simp [her, not_lt.mpr he0] at hinit

/-- C9: `gpio_write` and `gpio_read` agree on the encoding of a value.  For `HIGH`
the buffer written is the single byte `'1'`, for `LOW` the single byte `'0'`, and the
call succeeds exactly when `write` reports one byte; decoding the byte written for
`v` with the rule of `gpio_read` (LOW iff the byte is `'0'`, HIGH otherwise) gives
`v` back; for any other value nothing is written, `ret` stays `0`, and the fatal
check on `ret != 1` ends the process. -/
theorem C9_gpio_write_read_agree (K : gpio_h) (hK : K.GPIO_VALUE_HIGH ≠ K.GPIO_VALUE_LOW)
    (write_ret : String → Int) :
    (gpio_write K write_ret K.GPIO_VALUE_HIGH).written = some "1"
    ∧ (gpio_write K write_ret K.GPIO_VALUE_LOW).written = some "0"
    ∧ "1".toList = ['1'] ∧ "0".toList = ['0']
    ∧ ((gpio_write K write_ret K.GPIO_VALUE_HIGH).result = .returned () ↔ write_ret "1" = 1)
    ∧ ((gpio_write K write_ret K.GPIO_VALUE_LOW).result = .returned () ↔ write_ret "0" = 1)
    ∧ (∀ c : Char, gpio_read_decode K c = K.GPIO_VALUE_LOW ↔ c = '0')
    ∧ (∀ c : Char, c ≠ '0' → gpio_read_decode K c = K.GPIO_VALUE_HIGH)
    ∧ (∀ v : Int, v = K.GPIO_VALUE_HIGH ∨ v = K.GPIO_VALUE_LOW →
        ∃ c : Char, (gpio_write K write_ret v).written = some (String.singleton c)
          ∧ gpio_read_decode K c = v
          ∧ ∀ lseek_ret read_ret : Int, 0 ≤ lseek_ret → 0 ≤ read_ret →
              gpio_read K lseek_ret read_ret c = .returned v)
    ∧ (∀ v : Int, v ≠ K.GPIO_VALUE_HIGH → v ≠ K.GPIO_VALUE_LOW →
        gpio_write K write_ret v = ⟨none, 0, .aborted (.FATAL_SYSCALL_ON 192)⟩) := by
  have hK2 : K.GPIO_VALUE_LOW ≠ K.GPIO_VALUE_HIGH := fun h => hK h.symm
  refine ⟨by simp [gpio_write], by simp [gpio_write, hK2], by decide, by decide,
    ?_, ?_, ?_, ?_, ?_, ?_⟩
  · simp [gpio_write]
  · simp [gpio_write, hK2]
  · intro c
    unfold gpio_read_decode
    by_cases hc : c = '0'
    · simp [hc]
    · simp [hc, hK]
  · intro c hc
    simp [gpio_read_decode, hc]
  · intro v hv
    rcases hv with hv | hv
    · subst hv
      refine ⟨'1', by simp [gpio_write]; rfl, by simp [gpio_read_decode], ?_⟩
      intro l r hl hr
      simp [gpio_read, gpio_read_decode, not_lt.mpr hl, not_lt.mpr hr]
    · subst hv
      refine ⟨'0', by simp [gpio_write, hK2]; rfl, by simp [gpio_read_decode], ?_⟩
      intro l r hl hr
      simp [gpio_read, gpio_read_decode, not_lt.mpr hl, not_lt.mpr hr]
  · intro v h1 h2
    simp [gpio_write, h1, h2]

/-- C9 at the enumerator values `HIGH = 1`, `LOW = 0` with a `write` that reports
the full length. -/
theorem C9_gpio_write_read_agree_witness :
    (gpio_write gpio_h_example (fun d => d.length) 1).written = some "1"
    ∧ gpio_read gpio_h_example 0 1 '1' = .returned 1
    ∧ gpio_read gpio_h_example 0 1 '0' = .returned 0
    ∧ gpio_write gpio_h_example (fun d => d.length) 7
        = ⟨none, 0, .aborted (.FATAL_SYSCALL_ON 192)⟩ :=
  ⟨(C9_gpio_write_read_agree gpio_h_example (by decide) (fun d => d.length)).1,
    by decide, by decide, by decide⟩

/-- C10: whenever `set_direction` or `set_edge` returns, the result is not negative:
`set_direction` returns 2 for IN, 3 for OUT and 0 with no write for any other
direction; `set_edge` returns 4 for BOTH, 7 for FALLING, 6 for RISING and 0 with no
write for any other edge; a `simple_write` result other than the full length ends
the process inside the helper.  So the checks `FATAL_ON(set_direction(...) < 0)` and
`FATAL_ON(set_edge(...) < 0)` of `gpio_init` (lines 153 and 155) never fire. -/
theorem C10_set_direction_set_edge_nonneg (K : gpio_h)
    (hd : K.GPIO_DIRECTION_IN ≠ K.GPIO_DIRECTION_OUT)
    (hbf : K.GPIO_EDGE_BOTH ≠ K.GPIO_EDGE_FALLING)
    (hbr : K.GPIO_EDGE_BOTH ≠ K.GPIO_EDGE_RISING)
    (hfr : K.GPIO_EDGE_FALLING ≠ K.GPIO_EDGE_RISING)
    (sys : Sys) (pin : Nat) (direction edge : Int) :
    (∀ r, (set_direction K sys pin direction).result = .returned r → 0 ≤ r)
    ∧ (∀ r, (set_edge K sys pin edge).result = .returned r → 0 ≤ r)
    ∧ (set_direction K sys pin K.GPIO_DIRECTION_IN
        = ⟨[⟨direction_file pin, "in"⟩],
            if simple_write sys (direction_file pin) "in" = 2 then .returned 2
            else .aborted (.FATAL_SYSCALL_ON 106)⟩)
    ∧ (set_direction K sys pin K.GPIO_DIRECTION_OUT
        = ⟨[⟨direction_file pin, "out"⟩],
            if simple_write sys (direction_file pin) "out" = 3 then .returned 3
            else .aborted (.FATAL_SYSCALL_ON 109)⟩)
    ∧ (direction ≠ K.GPIO_DIRECTION_IN → direction ≠ K.GPIO_DIRECTION_OUT →
        set_direction K sys pin direction = ⟨[], .returned 0⟩)
    ∧ (set_edge K sys pin K.GPIO_EDGE_BOTH
        = ⟨[⟨edge_file pin, "both"⟩],
            if simple_write sys (edge_file pin) "both" = 4 then .returned 4
            else .aborted (.FATAL_SYSCALL_ON 124)⟩)
    ∧ (set_edge K sys pin K.GPIO_EDGE_FALLING
        = ⟨[⟨edge_file pin, "falling"⟩],
            if simple_write sys (edge_file pin) "falling" = 7 then .returned 7
            else .aborted (.FATAL_SYSCALL_ON 127)⟩)
    ∧ (set_edge K sys pin K.GPIO_EDGE_RISING
        = ⟨[⟨edge_file pin, "rising"⟩],
            if simple_write sys (edge_file pin) "rising" = 6 then .returned 6
            else .aborted (.FATAL_SYSCALL_ON 130)⟩)
    ∧ (edge ≠ K.GPIO_EDGE_BOTH → edge ≠ K.GPIO_EDGE_FALLING → edge ≠ K.GPIO_EDGE_RISING →
        set_edge K sys pin edge = ⟨[], .returned 0⟩)
    ∧ gpio_init K sys pin direction edge ≠ .aborted (.FATAL_ON 153)
    ∧ gpio_init K sys pin direction edge ≠ .aborted (.FATAL_ON 155) := by
  refine ⟨fun r hr => set_direction_nonneg K sys pin direction r hr,
    fun r hr => set_edge_nonneg K sys pin edge r hr, ?_, ?_, ?_, ?_, ?_, ?_, ?_, ?_, ?_⟩
  · unfold set_direction
    by_cases h : simple_write sys (direction_file pin) "in" = 2 <;> simp [h]
  · unfold set_direction
    by_cases h : simple_write sys (direction_file pin) "out" = 3 <;> simp [h, hd.symm]
  · intro h1 h2
    simp [set_direction, h1, h2]
  · unfold set_edge
    by_cases h : simple_write sys (edge_file pin) "both" = 4 <;> simp [h]
  · unfold set_edge
    by_cases h : simple_write sys (edge_file pin) "falling" = 7 <;> simp [h, hbf.symm]
  · unfold set_edge
    by_cases h : simple_write sys (edge_file pin) "rising" = 6 <;>
      simp [h, hbr.symm, hfr.symm]
  · intro h1 h2 h3
    simp [set_edge, h1, h2, h3]
  · exact gpio_init_fatal_on K sys pin direction edge 153 (Or.inl rfl)
  · exact gpio_init_fatal_on K sys pin direction edge 155 (Or.inr rfl)

/-! ## Theorems: session, registry, options -/

/-- Reading a registry after `updateAt`. -/
lemma getElem?_updateAt (l : List Endpoint) (i j : Nat) (f : Endpoint → Endpoint) :
    (updateAt l i f)[j]? = if j = i then (l[j]?).map f else l[j]? := by
  induction l generalizing i j with
  | nil => simp [updateAt]
  | cons r rs ih =>
    cases i with
    | zero => cases j <;> simp [updateAt]
    | succ i =>
      cases j with
      | zero => simp [updateAt]
      | succ j => simp [updateAt, ih]

/-- A record read after `updateAt` comes from a record at the same index. -/
lemma updateAt_origin (l : List Endpoint) (i j : Nat) (f : Endpoint → Endpoint) (r' : Endpoint)
    (h : (updateAt l i f)[j]? = some r') :
    ∃ r, l[j]? = some r ∧ (r' = r ∨ (j = i ∧ r' = f r)) := by
  rw [getElem?_updateAt] at h
  split_ifs at h with hji
  · cases hl : l[j]? with
    | none => simp [hl] at h
    | some r =>
      simp [hl] at h
      exact ⟨r, rfl, Or.inr ⟨hji, h.symm⟩⟩
  · exact ⟨r', h, Or.inl rfl⟩

/-- The generation counter of a session with an updated record. -/
lemma update_generation (s : Session) (i : Nat) (f : Endpoint → Endpoint) :
    (s.update i f).generation = s.generation := rfl

/-- The connection of a session with an updated record. -/
lemma update_link (s : Session) (i : Nat) (f : Endpoint → Endpoint) :
    (s.update i f).link = s.link := rfl

/-- The call `cpc_open_endpoint` keeps the generation counter. -/
lemma open_generation (s : Session) (id w : Nat) (acc : Bool) :
    (cpc_open_endpoint s id w acc).1.generation = s.generation := by
  unfold cpc_open_endpoint
  split_ifs <;> rfl

/-- The call `cpc_close_endpoint` keeps the generation counter. -/
lemma close_generation (s : Session) (h : EndpointHandle) :
    (cpc_close_endpoint s h).1.generation = s.generation := by
  unfold cpc_close_endpoint
  split_ifs
  · rfl
  · split
    · rfl
    · split <;> rfl

/-- The call `cpc_set_endpoint_option` keeps the generation counter. -/
lemma set_option_generation (s : Session) (h : EndpointHandle) (k : cpc_option_t)
    (v : OptionValue) : (cpc_set_endpoint_option s h k v).1.generation = s.generation := by
  unfold cpc_set_endpoint_option
  split_ifs
  · rfl
  · split
    · rfl
    · split <;> rfl

/-- The call `daemon_error` keeps the generation counter. -/
lemma daemon_error_generation (s : Session) (id : Nat) (st : cpc_endpoint_state_t) :
    (daemon_error s id st).generation = s.generation := by
  unfold daemon_error
  split <;> rfl

/-- An event never decreases the generation counter, and only a successful restart
changes it. -/
lemma step_generation (s : Session) (ev : Event) :
    (s.step ev).generation = s.generation
      ∨ ((∃ l, ev = .restart (some l)) ∧ (s.step ev).generation = s.generation + 1) := by
  cases ev with
  | open_endpoint id w acc => exact Or.inl (open_generation s id w acc)
  | close_endpoint h => exact Or.inl (close_generation s h)
  | restart daemon =>
    cases daemon with
    | none => exact Or.inl rfl
    | some l => exact Or.inr ⟨⟨l, rfl⟩, rfl⟩
  | set_endpoint_option h k v => exact Or.inl (set_option_generation s h k v)
  | daemon_error id st => exact Or.inl (daemon_error_generation s id st)

/-- The generation counter is monotonic along any sequence of events. -/
lemma run_generation_le (s : Session) (evs : List Event) :
    s.generation ≤ (s.run evs).generation := by
  induction evs generalizing s with
  | nil => exact le_refl _
  | cons ev evs ih =>
    have h1 : s.generation ≤ (s.step ev).generation := by
      rcases step_generation s ev with h | ⟨_, h⟩ <;> omega
    exact le_trans h1 (ih (s.step ev))

/-- A successful open: the window size is 1, no record of the id was live, and the
new record is appended at the index of the handle. -/
lemma open_ok (s s' : Session) (id w : Nat) (acc : Bool) (h : EndpointHandle)
    (hopen : cpc_open_endpoint s id w acc = (s', .ok h)) :
    w = 1 ∧ s.registry.any (Endpoint.live id) = false
      ∧ h = ⟨s.registry.length, id, s.generation⟩
      ∧ s' = { s with registry := s.registry ++
          [⟨id, .SL_CPC_STATE_OPEN, w, s.generation, OptionStore.initial s.link⟩] } := by
  unfold cpc_open_endpoint at hopen
  split_ifs at hopen with h1 h2 h3
  · simp at hopen
  · simp at hopen
  · simp at hopen
  · simp only [Prod.mk.injEq, Result.ok.injEq] at hopen
    refine ⟨not_not.mp h1, by simpa using h2, hopen.2.symm, hopen.1.symm⟩

/-- C4: `open` with a window size other than 1 fails with `InvalidWindowSize` and
leaves the session as it was, whatever the session, the endpoint id and the answer
of the daemon; a handle is only ever returned for window size 1 (and window size 1
does yield a handle on a fresh session when the daemon accepts). -/
theorem C4_open_invalid_window_size (s : Session) (id w : Nat) (daemon_accepts : Bool)
    (hw : w ≠ 1) :
    cpc_open_endpoint s id w daemon_accepts = (s, .error .InvalidWindowSize)
    ∧ (∀ h, (cpc_open_endpoint s id w daemon_accepts).2 ≠ .ok h)
    ∧ (∀ (s₁ : Session) (w₁ : Nat) (acc : Bool) (h : EndpointHandle),
        (cpc_open_endpoint s₁ id w₁ acc).2 = .ok h → w₁ = 1)
    ∧ (∀ l : DaemonLink, (cpc_open_endpoint ⟨0, [], l⟩ id 1 true).2 = .ok ⟨0, id, 0⟩) := by
  have e : cpc_open_endpoint s id w daemon_accepts = (s, .error .InvalidWindowSize) := by
    simp [cpc_open_endpoint, hw]
  refine ⟨e, ?_, ?_, ?_⟩
  · intro h hh
    rw [e] at hh
    simp at hh
  · intro s₁ w₁ acc h hh
    by_contra hne
    simp [cpc_open_endpoint, hne] at hh
  · intro l
    simp [cpc_open_endpoint]

/-- C4 at user endpoint 90 with window size 2 on a fresh session. -/
theorem C4_open_invalid_window_size_witness :
    cpc_open_endpoint ⟨0, [], link_example⟩ 90 2 true
      = (⟨0, [], link_example⟩, .error .InvalidWindowSize) :=
  (C4_open_invalid_window_size ⟨0, [], link_example⟩ 90 2 true (by decide)).1

/-- What a resolved handle says about the registry. -/
lemma resolve_some (s : Session) (h : EndpointHandle) (r : Endpoint)
    (hr : s.resolve h = some r) :
    s.registry[h.index]? = some r ∧ r.id = h.id ∧ r.generation = h.generation := by
  unfold Session.resolve at hr
  split at hr
  · rename_i r₀ h₀
    split_ifs at hr with hc
    simp only [Option.some.injEq] at hr
    subst hr
    exact ⟨h₀, hc.1, hc.2⟩
  · simp at hr

/-- A handle whose record is in the registry resolves to it. -/
lemma resolve_of_getElem? (s : Session) (h : EndpointHandle) (r : Endpoint)
    (h₀ : s.registry[h.index]? = some r) (h₁ : r.id = h.id) (h₂ : r.generation = h.generation) :
    s.resolve h = some r := by
  unfold Session.resolve
  simp [h₀, h₁, h₂]

/-- Updating a record with an identity-keeping function refines the registry. -/
lemma refines_update (l : List Endpoint) (i : Nat) (f : Endpoint → Endpoint)
    (hf : KeepsIdentity f) : Refines l (updateAt l i f) := by
  intro j r' hj
  rcases updateAt_origin l i j f r' hj with ⟨r, hr, rfl | ⟨_, rfl⟩⟩
  · exact ⟨r', hr, rfl, rfl, rfl, id⟩
  · exact ⟨r, hr, (hf r).1, (hf r).2.1, (hf r).2.2.1, (hf r).2.2.2⟩

/-- A registry refines itself. -/
lemma refines_refl (l : List Endpoint) : Refines l l :=
  fun _ r' hj => ⟨r', hj, rfl, rfl, rfl, id⟩

/-- The registry after `cpc_close_endpoint` refines the one before. -/
lemma close_refines (s : Session) (h : EndpointHandle) :
    Refines s.registry (cpc_close_endpoint s h).1.registry
      ∧ (cpc_close_endpoint s h).1.link = s.link := by
  unfold cpc_close_endpoint
  split_ifs
  · exact ⟨refines_refl _, rfl⟩
  · split
    · exact ⟨refines_refl _, rfl⟩
    · have hf : KeepsIdentity (fun e : Endpoint =>
          { e with state := cpc_endpoint_state_t.SL_CPC_STATE_CLOSED }) :=
        fun e => ⟨rfl, rfl, rfl, fun hne => absurd rfl hne⟩
      split
      · exact ⟨refines_update _ _ _ hf, rfl⟩
      · exact ⟨refines_update _ _ _ hf, rfl⟩
      · exact ⟨refines_refl _, rfl⟩

/-- The registry after `cpc_set_endpoint_option` refines the one before. -/
lemma set_option_refines (s : Session) (h : EndpointHandle) (k : cpc_option_t)
    (v : OptionValue) :
    Refines s.registry (cpc_set_endpoint_option s h k v).1.registry
      ∧ (cpc_set_endpoint_option s h k v).1.link = s.link := by
  unfold cpc_set_endpoint_option
  split_ifs
  · exact ⟨refines_refl _, rfl⟩
  · split
    · exact ⟨refines_refl _, rfl⟩
    · split
      · exact ⟨refines_refl _, rfl⟩
      · exact ⟨refines_update _ _ _ (fun e => ⟨rfl, rfl, rfl, id⟩), rfl⟩
      · exact ⟨refines_update _ _ _ (fun e => ⟨rfl, rfl, rfl, id⟩), rfl⟩
      · exact ⟨refines_update _ _ _ (fun e => ⟨rfl, rfl, rfl, id⟩), rfl⟩
      · exact ⟨refines_update _ _ _ (fun e => ⟨rfl, rfl, rfl, id⟩), rfl⟩
      · exact ⟨refines_refl _, rfl⟩

/-- The registry after `daemon_error` refines the one before. -/
lemma daemon_error_refines (s : Session) (id : Nat) (st : cpc_endpoint_state_t) :
    Refines s.registry (daemon_error s id st).registry
      ∧ (daemon_error s id st).link = s.link := by
  have key : ∀ st', Refines s.registry (s.registry.map (fun r =>
      if r.id = id ∧ r.state = .SL_CPC_STATE_OPEN then { r with state := st' } else r)) := by
    intro st' j r' hj
    rw [List.getElem?_map] at hj
    cases hl : s.registry[j]? with
    | none => simp [hl] at hj
    | some r =>
      simp only [hl, Option.map_some', Option.some.injEq] at hj
      refine ⟨r, rfl, ?_⟩
      split_ifs at hj with hc
      · subst hj
        refine ⟨rfl, rfl, rfl, fun _ => ?_⟩
        rw [hc.2]; decide
      · subst hj
        exact ⟨rfl, rfl, rfl, fun h => h⟩
  unfold daemon_error
  split
  · exact ⟨key _, rfl⟩
  · exact ⟨key _, rfl⟩
  · exact ⟨key _, rfl⟩
  · exact ⟨refines_refl _, rfl⟩

/-- Refinement keeps "at most one live record per id". -/
lemma oneLive_of_refines (s s' : Session) (hr : Refines s.registry s'.registry)
    (hs : OneLivePerId s) : OneLivePerId s' := by
  intro i j ri rj hi hj hid hli hlj
  rcases hr i ri hi with ⟨ri₀, hi₀, hi1, _, _, hi4⟩
  rcases hr j rj hj with ⟨rj₀, hj₀, hj1, _, _, hj4⟩
  refine hs i j ri₀ rj₀ hi₀ hj₀ (by rw [← hi1, ← hj1, hid]) ?_ ?_
  · simp only [Endpoint.live, beq_self_eq_true, Bool.true_and, bne_iff_ne, ne_eq] at hli ⊢
    exact hi4 hli
  · simp only [Endpoint.live, beq_self_eq_true, Bool.true_and, bne_iff_ne, ne_eq] at hlj ⊢
    exact hj4 hlj

/-- Refinement keeps the negotiated max-write-size on every record. -/
lemma maxWrite_of_refines (s s' : Session) (hr : Refines s.registry s'.registry)
    (hl : s'.link = s.link) (hs : MaxWriteNegotiated s) : MaxWriteNegotiated s' := by
  intro j r' hj
  rcases hr j r' hj with ⟨r, hr0, _, _, hmw, _⟩
  rw [hmw, hl]
  exact hs j r hr0

/-- Reading the registry after a successful open. -/
lemma getElem?_open (l : List Endpoint) (e r : Endpoint) (j : Nat)
    (hj : (l ++ [e])[j]? = some r) : l[j]? = some r ∨ (j = l.length ∧ r = e) := by
  rcases Nat.lt_or_ge j l.length with hlt | hge
  · rw [List.getElem?_append_left hlt] at hj
    exact Or.inl hj
  · rw [List.getElem?_append_right hge] at hj
    cases hk : j - l.length with
    | zero =>
      rw [hk] at hj
      simp only [List.getElem?_cons_zero, Option.some.injEq] at hj
      exact Or.inr ⟨by omega, hj.symm⟩
    | succ k =>
      rw [hk] at hj
      simp at hj

/-- An event keeps "at most one live record per id" and the negotiated
max-write-size. -/
lemma step_invariant (s : Session) (ev : Event)
    (hs : OneLivePerId s ∧ MaxWriteNegotiated s) :
    OneLivePerId (s.step ev) ∧ MaxWriteNegotiated (s.step ev) := by
  cases ev with
  | open_endpoint id w acc =>
    cases hres : cpc_open_endpoint s id w acc with
    | mk s' res =>
      have hstep : s.step (.open_endpoint id w acc) = s' := by
        simp [Session.step, hres]
      rw [hstep]
      cases res with
      | error e =>
        have : s' = s := by
          unfold cpc_open_endpoint at hres
          split_ifs at hres <;> simp at hres <;> exact hres.1.symm
        rw [this]; exact hs
      | ok h =>
        rcases open_ok s s' id w acc h hres with ⟨_, hnone, _, rfl⟩
        have hno : ∀ (j : Nat) (r : Endpoint), s.registry[j]? = some r → r.live id = false := by
          intro j r hj
          have hmem := List.getElem?_mem hj
          by_contra hne
          have : s.registry.any (Endpoint.live id) = true :=
            List.any_eq_true.mpr ⟨r, hmem, by simpa using hne⟩
          rw [hnone] at this
          exact Bool.false_ne_true this
        constructor
        · intro i j ri rj hi hj hid hli hlj
          rcases getElem?_open _ _ _ _ hi with hi' | ⟨hi1, hi2⟩ <;>
            rcases getElem?_open _ _ _ _ hj with hj' | ⟨hj1, hj2⟩
          · exact hs.1 i j ri rj hi' hj' hid hli hlj
          · subst hj2
            have := hno i ri hi'
            simp only at hid
            rw [← hid, hli] at this
            exact absurd this (by decide)
          · subst hi2
            have := hno j rj hj'
            simp only at hid
            rw [hid, hlj] at this
            exact absurd this (by decide)
          · omega
        · intro j r hj
          rcases getElem?_open _ _ _ _ hj with hj' | ⟨_, hj2⟩
          · exact hs.2 j r hj'
          · subst hj2; rfl
  | close_endpoint h =>
    exact ⟨oneLive_of_refines s _ (close_refines s h).1 hs.1,
      maxWrite_of_refines s _ (close_refines s h).1 (close_refines s h).2 hs.2⟩
  | restart daemon =>
    cases daemon with
    | none => exact hs
    | some l =>
      constructor
      · intro i j ri rj hi
        simp [Session.step, cpc_restart] at hi
      · intro j r hj
        simp [Session.step, cpc_restart] at hj
  | set_endpoint_option h k v =>
    exact ⟨oneLive_of_refines s _ (set_option_refines s h k v).1 hs.1,
      maxWrite_of_refines s _ (set_option_refines s h k v).1 (set_option_refines s h k v).2 hs.2⟩
  | daemon_error id st =>
    exact ⟨oneLive_of_refines s _ (daemon_error_refines s id st).1 hs.1,
      maxWrite_of_refines s _ (daemon_error_refines s id st).1 (daemon_error_refines s id st).2
        hs.2⟩

/-- Every reachable session has at most one live record per id, and every record
carries the negotiated max-write-size. -/
lemma reachable_invariant (s : Session) (hs : Reachable s) :
    OneLivePerId s ∧ MaxWriteNegotiated s := by
  rcases hs with ⟨l, evs, rfl⟩
  have gen : ∀ (evs : List Event) (s : Session), OneLivePerId s ∧ MaxWriteNegotiated s →
      OneLivePerId (s.run evs) ∧ MaxWriteNegotiated (s.run evs) := by
    intro evs
    induction evs with
    | nil => intro s hs; exact hs
    | cons ev evs ih => intro s hs; exact ih (s.step ev) (step_invariant s ev hs)
  apply gen
  constructor
  · intro i j ri rj hi
    simp at hi
  · intro j r hj
    simp at hj

/-- A held handle stays held when a record is updated without closing it. -/
lemma held_update (s : Session) (h : EndpointHandle) (i : Nat) (f : Endpoint → Endpoint)
    (hh : Held s h)
    (hf : ∀ e, (f e).id = e.id ∧ (f e).generation = e.generation
      ∧ (e.state ≠ cpc_endpoint_state_t.SL_CPC_STATE_CLOSED →
          (f e).state ≠ cpc_endpoint_state_t.SL_CPC_STATE_CLOSED)) :
    Held (s.update i f) h := by
  rcases hh with ⟨hg, r, hr, h1, h2, h3⟩
  refine ⟨hg, ?_⟩
  show ∃ r', (updateAt s.registry i f)[h.index]? = some r' ∧ _
  rw [getElem?_updateAt]
  split_ifs with hi
  · exact ⟨f r, by simp [hr], by rw [(hf r).1, h1], by rw [(hf r).2.1, h2], (hf r).2.2 h3⟩
  · exact ⟨r, hr, h1, h2, h3⟩

/-- A held handle stays held when another record is updated. -/
lemma held_update_ne (s : Session) (h : EndpointHandle) (i : Nat) (f : Endpoint → Endpoint)
    (hh : Held s h) (hi : h.index ≠ i) : Held (s.update i f) h := by
  rcases hh with ⟨hg, r, hr, h1, h2, h3⟩
  refine ⟨hg, r, ?_, h1, h2, h3⟩
  show (updateAt s.registry i f)[h.index]? = some r
  rw [getElem?_updateAt, if_neg hi]
  exact hr

/-- The handle returned by a successful open is held. -/
lemma held_after_open (s s' : Session) (id w : Nat) (acc : Bool) (h : EndpointHandle)
    (hopen : cpc_open_endpoint s id w acc = (s', .ok h)) : Held s' h ∧ h.id = id := by
  rcases open_ok s s' id w acc h hopen with ⟨_, _, rfl, rfl⟩
  refine ⟨⟨rfl, _, List.getElem?_concat_length _ _, rfl, rfl, by simp⟩, rfl⟩

/-- A held handle stays held over any event other than its own close and a
successful restart. -/
lemma held_step (s : Session) (h : EndpointHandle) (ev : Event) (hh : Held s h)
    (hc : ev ≠ .close_endpoint h) (hr : ∀ l, ev ≠ .restart (some l)) :
    Held (s.step ev) h := by
  cases ev with
  | open_endpoint id w acc =>
    show Held (cpc_open_endpoint s id w acc).1 h
    unfold cpc_open_endpoint
    split_ifs
    · exact hh
    · exact hh
    · exact hh
    · rcases hh with ⟨hg, r, hr0, h1, h2, h3⟩
      refine ⟨hg, r, ?_, h1, h2, h3⟩
      have hlt : h.index < s.registry.length := by
        rcases List.getElem?_eq_some_iff.mp hr0 with ⟨hlt, _⟩
        exact hlt
      show (s.registry ++ _)[h.index]? = some r
      rw [List.getElem?_append_left hlt]
      exact hr0
  | close_endpoint h' =>
    show Held (cpc_close_endpoint s h').1 h
    unfold cpc_close_endpoint
    split_ifs with hgen
    · exact hh
    · have hne : h.index ≠ h'.index ∨ s.resolve h' = none := by
        by_cases hidx : h.index = h'.index
        · right
          cases hres : s.resolve h' with
          | none => rfl
          | some r' =>
            exfalso
            rcases resolve_some s h' r' hres with ⟨e0, e1, e2⟩
            rcases hh with ⟨hg, r, hr0, h1, h2, _⟩
            rw [← hidx, hr0] at e0
            simp only [Option.some.injEq] at e0
            subst e0
            apply hc
            have hgen' : h'.generation = s.generation := not_not.mp hgen
            cases h; cases h'
            simp_all
        · exact Or.inl hidx
      split
      · exact hh
      · rename_i r' hres
        rcases hne with hne | hne
        · split
          · exact held_update_ne s h _ _ hh hne
          · exact held_update_ne s h _ _ hh hne
          · exact hh
        · rw [hne] at hres
          simp at hres
  | restart daemon =>
    cases daemon with
    | none => exact hh
    | some l => exact absurd rfl (hr l)
  | set_endpoint_option h' k v =>
    show Held (cpc_set_endpoint_option s h' k v).1 h
    unfold cpc_set_endpoint_option
    split_ifs
    · exact hh
    · split
      · exact hh
      · split
        · exact hh
        · exact held_update s h _ _ hh (fun e => ⟨rfl, rfl, fun x => x⟩)
        · exact held_update s h _ _ hh (fun e => ⟨rfl, rfl, fun x => x⟩)
        · exact held_update s h _ _ hh (fun e => ⟨rfl, rfl, fun x => x⟩)
        · exact held_update s h _ _ hh (fun e => ⟨rfl, rfl, fun x => x⟩)
        · exact hh
  | daemon_error id st =>
    have key : ∀ st', st' ≠ cpc_endpoint_state_t.SL_CPC_STATE_CLOSED →
        Held { s with registry := s.registry.map (fun r =>
          if r.id = id ∧ r.state = .SL_CPC_STATE_OPEN then { r with state := st' } else r) }
          h := by
      intro st' hst
      rcases hh with ⟨hg, r, hr0, h1, h2, h3⟩
      refine ⟨hg, ?_⟩
      show ∃ r', (s.registry.map _)[h.index]? = some r' ∧ _
      rw [List.getElem?_map, hr0]
      simp only [Option.map_some', Option.some.injEq, exists_eq_left']
      split_ifs
      · exact ⟨h1, h2, hst⟩
      · exact ⟨h1, h2, h3⟩
    show Held (daemon_error s id st) h
    unfold daemon_error
    split
    · exact key _ (by decide)
    · exact key _ (by decide)
    · exact key _ (by decide)
    · exact hh

/-- A held handle stays held over a sequence of such events. -/
lemma held_run (evs : List Event) (s : Session) (h : EndpointHandle) (hh : Held s h)
    (hev : ∀ ev ∈ evs, ev ≠ .close_endpoint h ∧ ∀ l, ev ≠ .restart (some l)) :
    Held (s.run evs) h := by
  induction evs generalizing s with
  | nil => exact hh
  | cons ev evs ih =>
    have h0 := hev ev (List.mem_cons_self _ _)
    exact ih (s.step ev) (held_step s h ev hh h0.1 h0.2)
      (fun e he => hev e (List.mem_cons_of_mem _ he))

/-- While a handle is held, the registry has a live record of its id. -/
lemma held_live (s : Session) (h : EndpointHandle) (hh : Held s h) :
    s.registry.any (Endpoint.live h.id) = true := by
  rcases hh with ⟨_, r, hr0, h1, _, h3⟩
  refine List.any_eq_true.mpr ⟨r, List.getElem?_mem hr0, ?_⟩
  simp [Endpoint.live, h1, h3]

/-- A list in which any two records satisfying `p` stand at the same index has at
most one record satisfying `p`. -/
lemma filter_length_le_one (l : List Endpoint) (p : Endpoint → Bool)
    (h : ∀ (i j : Nat) (ri rj : Endpoint), l[i]? = some ri → l[j]? = some rj →
      p ri = true → p rj = true → i = j) : (l.filter p).length ≤ 1 := by
  induction l with
  | nil => simp
  | cons r rs ih =>
    have hrs : ∀ (i j : Nat) (ri rj : Endpoint), rs[i]? = some ri → rs[j]? = some rj →
        p ri = true → p rj = true → i = j := by
      intro i j ri rj hi hj hpi hpj
      have := h (i + 1) (j + 1) ri rj (by simpa using hi) (by simpa using hj) hpi hpj
      omega
    by_cases hp : p r = true
    · have hnil : rs.filter p = [] := by
        rw [List.filter_eq_nil_iff]
        intro a ha hpa
        rcases List.getElem?_of_mem ha with ⟨n, hn⟩
        have := h 0 (n + 1) r a (by simp) (by simpa using hn) hp hpa
        omega
      simp [List.filter_cons, hp, hnil]
    · simp only [List.filter_cons, hp]
      exact ih hrs

/-- With at most one live record per id, the live records of an id are at most
one. -/
lemma filter_live_length (t : Session) (i : Nat) (ht : OneLivePerId t) :
    (t.registry.filter (Endpoint.live i)).length ≤ 1 := by
  apply filter_length_le_one
  intro a b ra rb ha hb hpa hpb
  have ea : ra.id = i := by
    simp only [Endpoint.live, Bool.and_eq_true, beq_iff_eq] at hpa
    exact hpa.1
  have eb : rb.id = i := by
    simp only [Endpoint.live, Bool.and_eq_true, beq_iff_eq] at hpb
    exact hpb.1
  exact ht a b ra rb ha hb (by rw [ea, eb]) (by rw [ea]; exact hpa) (by rw [eb]; exact hpb)

/-- C5: if `open` on an id succeeded and the handle has not been closed since (no
close of that handle and no successful restart among the later events), the same
`open` call on that id fails with `AlreadyOpen` and leaves the session as it was,
whatever the daemon would answer; and in every reachable session at most one record
per endpoint id holds a live handle. -/
theorem C5_second_open_already_open (s s' : Session) (id w : Nat) (acc : Bool)
    (h : EndpointHandle) (hopen : cpc_open_endpoint s id w acc = (s', .ok h))
    (evs : List Event)
    (hev : ∀ ev ∈ evs, ev ≠ .close_endpoint h ∧ ∀ l, ev ≠ .restart (some l)) :
    (∀ acc', cpc_open_endpoint (s'.run evs) id w acc' = (s'.run evs, .error .AlreadyOpen))
    ∧ (∀ t : Session, Reachable t → OneLivePerId t)
    ∧ (∀ t : Session, Reachable t → ∀ i : Nat,
        (t.registry.filter (Endpoint.live i)).length ≤ 1) := by
  have hheld := held_after_open s s' id w acc h hopen
  have hw := (open_ok s s' id w acc h hopen).1
  have hlive := held_live _ h (held_run evs s' h hheld.1 hev)
  rw [hheld.2] at hlive
  refine ⟨?_, fun t ht => (reachable_invariant t ht).1, ?_⟩
  · intro acc'
    simp [cpc_open_endpoint, hw, hlive]
  · intro t ht i
    exact filter_live_length t i (reachable_invariant t ht).1

/-- C5 at user endpoint 90: after the open, an option change, a fault pushed by the
daemon and the open of another endpoint, a second open of 90 fails with
`AlreadyOpen`. -/
theorem C5_second_open_already_open_witness :
    cpc_open_endpoint
        (opened_example.run
          [.set_endpoint_option handle_example .CPC_OPTION_BLOCKING (.boolean false),
            .daemon_error 90 .SL_CPC_STATE_ERROR_FAULT, .open_endpoint 91 1 true]) 90 1 true
      = (opened_example.run
          [.set_endpoint_option handle_example .CPC_OPTION_BLOCKING (.boolean false),
            .daemon_error 90 .SL_CPC_STATE_ERROR_FAULT, .open_endpoint 91 1 true],
          .error .AlreadyOpen) :=
  (C5_second_open_already_open session_example opened_example 90 1 true handle_example
    (by decide) _
    (by
      intro ev hev
      simp only [List.mem_cons, List.mem_singleton, List.not_mem_nil, or_false] at hev
      rcases hev with rfl | rfl | rfl <;> simp)).1 true

/-- The result of `get` on a session whose record at the handle's index was
updated. -/
lemma get_after_update (value_size : cpc_option_t → Nat) (s : Session) (h : EndpointHandle)
    (r : Endpoint) (f : Endpoint → Endpoint) (k : cpc_option_t) (v : OptionValue)
    (optlen : Nat) (hg : ¬ h.generation ≠ s.generation) (hr : s.resolve h = some r)
    (hid : (f r).id = r.id) (hgen : (f r).generation = r.generation)
    (hv : (f r).options.value k = some v) (hlen : value_size k ≤ optlen) :
    cpc_get_endpoint_option value_size (s.update h.index f) h k optlen
      = .ok (v, value_size k) := by
  rcases resolve_some s h r hr with ⟨e0, e1, e2⟩
  have hres : (s.update h.index f).resolve h = some (f r) := by
    apply resolve_of_getElem?
    · show (updateAt s.registry h.index f)[h.index]? = some (f r)
      rw [getElem?_updateAt, if_pos rfl, e0]
      rfl
    · rw [hid, e1]
    · rw [hgen, e2]
  unfold cpc_get_endpoint_option
  rw [if_neg (by rw [update_generation]; exact hg), hres]
  simp only [hv]
  rw [if_neg (not_lt.mpr hlen)]

/-- The daemon-negotiated max-write-size is what `get` returns on a reachable
session. -/
lemma get_max_write_size (value_size : cpc_option_t → Nat) (t : Session) (g : EndpointHandle)
    (r : Endpoint) (optlen : Nat) (ht : Reachable t) (hg : g.generation = t.generation)
    (hr : t.resolve g = some r)
    (hlen : value_size .CPC_OPTION_MAX_WRITE_SIZE ≤ optlen) :
    cpc_get_endpoint_option value_size t g .CPC_OPTION_MAX_WRITE_SIZE optlen
      = .ok (.bytes t.link.max_write_size, value_size .CPC_OPTION_MAX_WRITE_SIZE) := by
  have hmw := (reachable_invariant t ht).2 g.index r (resolve_some t g r hr).1
  unfold cpc_get_endpoint_option
  rw [if_neg (not_not.mpr hg), hr]
  simp only [OptionStore.value, hmw]
  rw [if_neg (not_lt.mpr hlen)]

/-- C6: after a successful `set_option`, `get_option` of the same kind on the same
handle with a large enough buffer returns the value just set, with its size; the
kinds for which `set_option` can succeed are blocking-mode, rx-timeout, tx-timeout
and socket-buffer-size, and on a current handle it does succeed for every value of
the shape of the kind.  For the read-only kind max-write-size, `set_option` leaves
the session as it was and fails with `OptionNotSettable` on a current handle, and
`get_option` keeps returning the value negotiated with the daemon. -/
theorem C6_option_round_trip (value_size : cpc_option_t → Nat) (s s' : Session)
    (h : EndpointHandle) (k : cpc_option_t) (v : OptionValue) (optlen : Nat)
    (hset : cpc_set_endpoint_option s h k v = (s', .ok ()))
    (hlen : value_size k ≤ optlen) :
    cpc_get_endpoint_option value_size s' h k optlen = .ok (v, value_size k)
    ∧ (k = .CPC_OPTION_BLOCKING ∨ k = .CPC_OPTION_RX_TIMEOUT ∨ k = .CPC_OPTION_TX_TIMEOUT
        ∨ k = .CPC_OPTION_SOCKET_SIZE)
    ∧ k ≠ .CPC_OPTION_MAX_WRITE_SIZE ∧ k ≠ .CPC_OPTION_NONE
    ∧ (∀ (t : Session) (g : EndpointHandle) (r : Endpoint) (b : Bool) (d n : Nat),
        g.generation = t.generation → t.resolve g = some r →
          (cpc_set_endpoint_option t g .CPC_OPTION_BLOCKING (.boolean b)).2 = .ok ()
          ∧ (cpc_set_endpoint_option t g .CPC_OPTION_RX_TIMEOUT (.duration d)).2 = .ok ()
          ∧ (cpc_set_endpoint_option t g .CPC_OPTION_TX_TIMEOUT (.duration d)).2 = .ok ()
          ∧ (cpc_set_endpoint_option t g .CPC_OPTION_SOCKET_SIZE (.bytes n)).2 = .ok ())
    ∧ (∀ (t : Session) (g : EndpointHandle) (u : OptionValue),
        (cpc_set_endpoint_option t g .CPC_OPTION_MAX_WRITE_SIZE u).1 = t
        ∧ (cpc_set_endpoint_option t g .CPC_OPTION_MAX_WRITE_SIZE u).2 ≠ .ok ()
        ∧ ∀ r, g.generation = t.generation → t.resolve g = some r →
          (cpc_set_endpoint_option t g .CPC_OPTION_MAX_WRITE_SIZE u).2
              = .error .OptionNotSettable
          ∧ (Reachable t → ∀ n, value_size .CPC_OPTION_MAX_WRITE_SIZE ≤ n →
              cpc_get_endpoint_option value_size
                  (cpc_set_endpoint_option t g .CPC_OPTION_MAX_WRITE_SIZE u).1 g
                  .CPC_OPTION_MAX_WRITE_SIZE n
                = .ok (.bytes t.link.max_write_size,
                    value_size .CPC_OPTION_MAX_WRITE_SIZE))) := by
  have main : cpc_get_endpoint_option value_size s' h k optlen = .ok (v, value_size k)
      ∧ (k = .CPC_OPTION_BLOCKING ∨ k = .CPC_OPTION_RX_TIMEOUT ∨ k = .CPC_OPTION_TX_TIMEOUT
        ∨ k = .CPC_OPTION_SOCKET_SIZE) := by
    unfold cpc_set_endpoint_option at hset
    split_ifs at hset with hg
    · simp at hset
    · split at hset
      · simp at hset
      · rename_i r hr
        split at hset
        · simp at hset
        · simp only [Prod.mk.injEq, and_true] at hset
          subst hset
          exact ⟨get_after_update value_size s h r _ _ _ optlen hg hr rfl rfl rfl hlen,
            Or.inl rfl⟩
        · simp only [Prod.mk.injEq, and_true] at hset
          subst hset
          exact ⟨get_after_update value_size s h r _ _ _ optlen hg hr rfl rfl rfl hlen,
            Or.inr (Or.inl rfl)⟩
        · simp only [Prod.mk.injEq, and_true] at hset
          subst hset
          exact ⟨get_after_update value_size s h r _ _ _ optlen hg hr rfl rfl rfl hlen,
            Or.inr (Or.inr (Or.inl rfl))⟩
        · simp only [Prod.mk.injEq, and_true] at hset
          subst hset
          exact ⟨get_after_update value_size s h r _ _ _ optlen hg hr rfl rfl rfl hlen,
            Or.inr (Or.inr (Or.inr rfl))⟩
        · simp at hset
  refine ⟨main.1, main.2, ?_, ?_, ?_, ?_⟩
  · rcases main.2 with hk | hk | hk | hk <;> rw [hk] <;> decide
  · rcases main.2 with hk | hk | hk | hk <;> rw [hk] <;> decide
  · intro t g r b d n hg hr
    refine ⟨?_, ?_, ?_, ?_⟩ <;>
      (unfold cpc_set_endpoint_option; rw [if_neg (not_not.mpr hg), hr])
  · intro t g u
    have e : ∀ r, g.generation = t.generation → t.resolve g = some r →
        cpc_set_endpoint_option t g .CPC_OPTION_MAX_WRITE_SIZE u
          = (t, .error .OptionNotSettable) := by
      intro r hg hr
      unfold cpc_set_endpoint_option
      rw [if_neg (not_not.mpr hg), hr]
    have e1 : (cpc_set_endpoint_option t g .CPC_OPTION_MAX_WRITE_SIZE u).1 = t
        ∧ (cpc_set_endpoint_option t g .CPC_OPTION_MAX_WRITE_SIZE u).2 ≠ .ok () := by
      unfold cpc_set_endpoint_option
      split_ifs
      · exact ⟨rfl, by simp⟩
      · split
        · exact ⟨rfl, by simp⟩
        · exact ⟨rfl, by simp⟩
    refine ⟨e1.1, e1.2, ?_⟩
    intro r hg hr
    rw [e r hg hr]
    exact ⟨rfl, fun ht n hn => get_max_write_size value_size t g r n ht hg hr hn⟩

/-- C6 at user endpoint 90: the socket buffer size set to 4096 is read back as
4096. -/
theorem C6_option_round_trip_witness :
    cpc_get_endpoint_option value_size_example
        (cpc_set_endpoint_option opened_example handle_example .CPC_OPTION_SOCKET_SIZE
          (.bytes 4096)).1 handle_example .CPC_OPTION_SOCKET_SIZE 4
      = .ok (.bytes 4096, 4) :=
  (C6_option_round_trip value_size_example opened_example
    (cpc_set_endpoint_option opened_example handle_example .CPC_OPTION_SOCKET_SIZE
      (.bytes 4096)).1 handle_example .CPC_OPTION_SOCKET_SIZE (.bytes 4096) 4
    (by decide) (by decide)).1

/-- C7: a successful restart increments the generation counter (a failed one leaves
it), and a handle opened before the restart is stale ever after: whatever events
follow the restart (further restarts, re-opens of the same id), every write and
every read on it fails with `StaleHandle`. -/
theorem C7_stale_after_restart (s₀ s₁ : Session) (id w : Nat) (acc : Bool)
    (h : EndpointHandle) (hopen : cpc_open_endpoint s₀ id w acc = (s₁, .ok h))
    (before : List Event) (l : DaemonLink) (later : List Event) :
    (cpc_restart (s₁.run before) (some l)).2 = .ok ()
    ∧ (cpc_restart (s₁.run before) (some l)).1.generation = (s₁.run before).generation + 1
    ∧ (cpc_restart (s₁.run before) none).1.generation = (s₁.run before).generation
    ∧ h.generation < ((cpc_restart (s₁.run before) (some l)).1.run later).generation
    ∧ (∀ (data : List Nat) (flags : Nat) (ev : TxEvent),
        cpc_write_endpoint ((cpc_restart (s₁.run before) (some l)).1.run later) h data flags ev
          = .error .StaleHandle)
    ∧ (∀ (count flags : Nat) (ev : RxEvent),
        cpc_read_endpoint ((cpc_restart (s₁.run before) (some l)).1.run later) h count flags ev
          = .error .StaleHandle) := by
  have hgen : h.generation = s₁.generation := by
    rcases open_ok s₀ s₁ id w acc h hopen with ⟨_, _, rfl, rfl⟩
    rfl
  have h1 := run_generation_le s₁ before
  have h2 := run_generation_le (cpc_restart (s₁.run before) (some l)).1 later
  have h3 : (cpc_restart (s₁.run before) (some l)).1.generation
      = (s₁.run before).generation + 1 := rfl
  have hlt : h.generation < ((cpc_restart (s₁.run before) (some l)).1.run later).generation := by
    omega
  refine ⟨rfl, h3, rfl, hlt, ?_, ?_⟩
  · intro data flags ev
    unfold cpc_write_endpoint
    rw [if_pos (Nat.ne_of_lt hlt)]
  · intro count flags ev
    unfold cpc_read_endpoint
    rw [if_pos (Nat.ne_of_lt hlt)]

/-- C7 at user endpoint 90: after a restart, a second restart and a re-open of 90, a
write on the first handle fails with `StaleHandle`. -/
theorem C7_stale_after_restart_witness :
    cpc_write_endpoint
        ((cpc_restart (opened_example.run []) (some link_example)).1.run
          [.restart (some link_example), .open_endpoint 90 1 true])
        handle_example [1, 2, 3] 0 .slot_free
      = .error .StaleHandle :=
  (C7_stale_after_restart session_example opened_example 90 1 true handle_example
    (by decide) [] link_example
    [.restart (some link_example), .open_endpoint 90 1 true]).2.2.2.2.1 [1, 2, 3] 0 .slot_free

/-- C10 at pin 17 with direction IN and edge BOTH on a system where every call
succeeds: `set_direction` returns 2, `set_edge` returns 4. -/
theorem C10_set_direction_set_edge_nonneg_witness :
    (set_direction gpio_h_example sys_ok 17 0
        = ⟨[⟨direction_file 17, "in"⟩],
            if simple_write sys_ok (direction_file 17) "in" = 2 then .returned 2
            else .aborted (.FATAL_SYSCALL_ON 106)⟩)
    ∧ simple_write sys_ok (direction_file 17) "in" = 2
    ∧ gpio_init gpio_h_example sys_ok 17 0 2 ≠ .aborted (.FATAL_ON 153) :=
  ⟨(C10_set_direction_set_edge_nonneg gpio_h_example (by decide) (by decide) (by decide)
      (by decide) sys_ok 17 0 2).2.2.1,
    by decide,
    (C10_set_direction_set_edge_nonneg gpio_h_example (by decide) (by decide) (by decide)
      (by decide) sys_ok 17 0 2).2.2.2.2.2.2.2.2.2.1⟩

end CpcDaemon
